import Mathlib

/-
Verification of the memory-matching game server (gameness/views.py).

The development shallowly embeds the request handlers of views.py:
the play endpoint (ContestGameView.post), the start endpoint
(ContestView.get_context_data / get_game_context) and the highscore
endpoint (ContestHighscoreView.get_context_data), together with the
helper game_completed.  The database is a record of lists of rows; a
Django save with an explicit primary key updates the existing row with
that key or inserts a new one, and the embedding mirrors that
(replace-or-append).  Timestamps and scores are rationals.  Handlers
that can raise an uncaught Python exception return an error value; a
handler that writes to the database before the raising point still
returns the mutated database, as Django autocommit persists those
writes.

Methods of the model layer (gameness/models.py) are not part of the
given sources; each such definition carries a comment starting with
Modelled from the spec and is kept as close to the wording of the
specification as possible.
-/

namespace Memorytest

/-- One click, a row and column pair, as parsed from the JSON body. -/
structure Click where
  row : Nat
  column : Nat
deriving DecidableEq, Repr

/-- A click enriched with the card id revealed at that cell, as returned
to the frontend. -/
structure ClickCard where
  row : Nat
  column : Nat
  card : Nat
deriving DecidableEq, Repr

/-- A Game row: playfield grid of card ids, state flags, score, average
seconds per turn, creation timestamp, and the open-turn marker holding
the pending first click of the current round. -/
structure Game where
  pk : Nat
  player : String
  playfield : List (List Nat)
  seed : String
  active : Bool
  finished : Bool
  score : ℚ
  time : ℚ
  created : ℚ
  open_turn : Bool
  hold_card : Option Click
deriving DecidableEq, Repr

/-- A Turn row: one resolved round of two clicks with its match outcome
and creation timestamp.  The game field is the primary key of the owning
game. -/
structure Turn where
  pk : Nat
  game : Nat
  meta : List ClickCard
  is_match : Bool
  created : ℚ
deriving DecidableEq, Repr

/-- The relational store: Game rows, Turn rows, and the primary keys of
games flagged by suspicious-game detection. -/
structure DB where
  games : List Game
  turns : List Turn
  suspected : List Nat
deriving DecidableEq, Repr

/-- The HTTP session: player identity, current game id, turn-id counter,
a possible stale click payload, and the game_id hex value written by the
start endpoint. -/
structure Session where
  player : Option String
  game : Option Nat
  turn : Option Nat
  click : Option Click
  game_id : Option String
deriving DecidableEq, Repr

/-- An uncaught Python exception. -/
inductive PyError where
  | keyError (key : String)
  | indexError
  | attributeError (attr : String)
deriving DecidableEq, Repr

/-- The JSON body produced by the play endpoint; a field that the handler
did not put into the JSON dictionary is none. -/
structure PlayResponse where
  status : Nat
  success : Bool
  click : Option (List ClickCard)
  matched : Option Bool
  completed : Option Bool
  score : Option ℚ
  msg : Option String
  csrf_token : Option String
deriving DecidableEq, Repr

/-- The POST body of a play request: the parsed click payload, or none
when the click key is absent. -/
structure PostData where
  click : Option Click
deriving DecidableEq, Repr

/-- Outcome of one play request: the response or the uncaught exception,
together with the database and session as left behind. -/
structure PlayStep where
  result : Except PyError PlayResponse
  db : DB
  sess : Session
deriving Repr

/-- Embeds aquire_csrf (views.py line 22): yields the anti-forgery token
of the request when one is applicable. -/
def aquire_csrf (reqCsrf : Option String) : Option String := reqCsrf

/-- Embeds smart_text as applied at views.py line 128: text coercion, the
identity on strings. -/
def smart_text (s : String) : String := s

/-- Modelled from the spec: Game.get_card_id returns the card id of the
playfield cell addressed by the click; an out-of-range coordinate raises
IndexError. -/
def Game.get_card_id (g : Game) (c : Click) : Except PyError Nat :=
  match g.playfield.get? c.row with
  | none => .error .indexError
  | some r =>
    match r.get? c.column with
    | none => .error .indexError
    | some card => .ok card

/-- Modelled from the spec: Game.update_turn sets the open-turn marker
and stores (or clears) the pending click payload on the game row. -/
def Game.update_turn (g : Game) (opening : Bool) (c : Option Click) : Game :=
  { g with open_turn := opening, hold_card := c }

/-- Modelled from the spec: Game.match resolves a pair of clicks by
comparing the underlying card ids at both coordinates, returning the two
revealed clicks and whether they match. -/
def Game.match_clicks (g : Game) (c1 c2 : Click) : Except PyError (List ClickCard × Bool) :=
  match g.get_card_id c1, g.get_card_id c2 with
  | .ok k1, .ok k2 =>
      .ok ([⟨c1.row, c1.column, k1⟩, ⟨c2.row, c2.column, k2⟩], k1 == k2)
  | .error e, _ => .error e
  | .ok _, .error e => .error e

/-- Modelled from the spec: Game.end_game stores the computed score and
the average seconds per turn and marks the game inactive. -/
def Game.end_game (g : Game) (score time : ℚ) : Game :=
  { g with score := score, time := time, active := false }

/-- Modelled from the spec: Game.set_finished marks the game finished. -/
def Game.set_finished (g : Game) : Game :=
  { g with finished := true }

/-- The Turn rows owned by the game with the given primary key. -/
def turnsOf (db : DB) (gid : Nat) : List Turn :=
  db.turns.filter (fun t => t.game == gid)

/-- The number of Turn rows of the game whose match flag is true. -/
def matchedCount (db : DB) (gid : Nat) : Nat :=
  List.countP (fun t => t.is_match) (turnsOf db gid)

/-- Total cells of the playfield of the game, rows times columns, read
as in game_completed (views.py line 35) from the grid and its first
row. -/
def cellCount (g : Game) : Nat :=
  g.playfield.length * (g.playfield.getD 0 []).length

/-- Half the cell count as a rational, the pair count of views.py line
35 (Python divides in float arithmetic; the division by two is exact for
the integers involved). -/
def pairsOf (g : Game) : ℚ :=
  (cellCount g : ℚ) / 2

/-- Embeds game_completed (views.py lines 27 to 39): the game is
complete when the count of matched turns equals total cells divided by
two.  Python compares the integer count against the float cells/2; that
comparison is exact and holds precisely when twice the matched count
equals the cell count, which is the integer form used here (the lemma
game_completed_iff below relates it to the rational form).  Reading the
first row of an empty playfield raises IndexError. -/
def game_completed (db : DB) (g : Game) : Except PyError Bool :=
  match g.playfield.get? 0 with
  | none => .error .indexError
  | some row0 =>
      .ok (2 * matchedCount db g.pk == g.playfield.length * row0.length)

/-- Modelled from the spec: Game.calculate_score computes the score from
matched turns versus total turns, weighted by elapsed time (the exact
formula is not given by the sources; no claim depends on its value). -/
def Game.calculate_score (db : DB) (g : Game) (now : ℚ) : ℚ :=
  let total := (turnsOf db g.pk).length
  let matchCnt := matchedCount db g.pk
  if total = 0 then 0 else (matchCnt : ℚ) / (total : ℚ) / (now - g.created + 1)

/-- Django save of a Game row with an explicit primary key: update the
existing row with that key, or insert the row when the key is absent. -/
def DB.saveGame (db : DB) (g : Game) : DB :=
  { db with
    games :=
      if db.games.any (fun x => x.pk == g.pk) then
        db.games.map (fun x => if x.pk == g.pk then g else x)
      else
        db.games ++ [g] }

/-- Django save of a Turn row with an explicit primary key: update the
existing row with that key, or insert the row when the key is absent. -/
def DB.saveTurn (db : DB) (t : Turn) : DB :=
  { db with
    turns :=
      if db.turns.any (fun x => x.pk == t.pk) then
        db.turns.map (fun x => if x.pk == t.pk then t else x)
      else
        db.turns ++ [t] }

/-- The ORM lookup of views.py line 76: the game with the given primary
key belonging to the player that is active and not finished. -/
def DB.findActiveGame (db : DB) (pk : Nat) (player : String) : Option Game :=
  db.games.find? (fun g => g.pk == pk && g.player == player && g.active && !g.finished)

/-- Lookup of a Game row by primary key alone. -/
def DB.findGamePk (db : DB) (pk : Nat) : Option Game :=
  db.games.find? (fun g => g.pk == pk)

/-- Lookup of a Turn row by primary key alone. -/
def DB.findTurnPk (db : DB) (pk : Nat) : Option Turn :=
  db.turns.find? (fun t => t.pk == pk)

/-- Modelled from the spec: SuspectedGame.is_game_suspected runs the
anti-cheat heuristic on a finished game and records its primary key when
the pattern looks suspicious; as a concrete stand-in for the unspecified
heuristic, a game whose every turn was a match is flagged.  It touches
no Game or Turn row. -/
def SuspectedGame.is_game_suspected (db : DB) (g : Game) : DB :=
  if matchedCount db g.pk == (turnsOf db g.pk).length then
    { db with suspected := g.pk :: db.suspected }
  else
    db

/-- The 500 response of views.py line 67, returned when no game id is
bound to the session. -/
def resp500 : PlayResponse :=
  { status := 500, success := false, click := none, matched := none,
    completed := none, score := none, msg := none, csrf_token := none }

/-- The 404 response of views.py lines 78 to 82, returned when no
active unfinished game of the player has the id in the session. -/
def resp404 : PlayResponse :=
  { status := 404, success := false, click := none, matched := none,
    completed := none, score := none,
    msg := some "No active game session found.", csrf_token := none }

/-- First-click branch of the play endpoint (views.py lines 84 to 91):
save the click as pending on the game and answer with the revealed card;
the response dictionary is built afresh and carries no csrf token. -/
def firstClickStep (db : DB) (sess : Session) (g : Game) (c : Click) : PlayStep :=
  match g.get_card_id c with
  | .error e => ⟨.error e, db, sess⟩
  | .ok card =>
      let g1 := g.update_turn true (some c)
      ⟨.ok { status := 200, success := true,
             click := some [⟨c.row, c.column, card⟩],
             matched := none, completed := none, score := none,
             msg := none, csrf_token := none },
       db.saveGame g1, sess⟩

/-- The Turn row saved at views.py lines 100 to 103: primary key from
the session turn counter, defaulting to game id times ten plus one when
the counter key is absent; row holds the owning game key, both revealed
clicks, the match flag, and the request timestamp. -/
def newTurn (sess : Session) (gid : Nat) (g : Game)
    (mc : List ClickCard × Bool) (now : ℚ) : Turn :=
  ⟨sess.turn.getD (gid * 10 + 1), g.pk, mc.1, mc.2, now⟩

/-- Database after views.py lines 103 to 108: the Turn row saved, then
the open turn on the game closed and the game saved. -/
def dbAfterTurn (db : DB) (sess : Session) (gid : Nat) (g : Game)
    (mc : List ClickCard × Bool) (now : ℚ) : DB :=
  (db.saveTurn (newTurn sess gid g mc now)).saveGame (g.update_turn false none)

/-- Session after views.py line 104: the turn counter set to the saved
primary key plus one. -/
def sessAfterTurn (sess : Session) (gid : Nat) : Session :=
  { sess with turn := some (sess.turn.getD (gid * 10 + 1) + 1) }

/-- The game as persisted by the completion branch (views.py lines 115
to 119): score from calculate_score, average seconds per turn from the
creation timestamp of the last Turn row minus the game creation
timestamp divided by the turn count, ended and marked finished. -/
def finishedGame (db2 : DB) (g1 : Game) (lastT : Turn) (now : ℚ) : Game :=
  (g1.end_game (Game.calculate_score db2 g1 now)
      ((lastT.created - g1.created) / ((turnsOf db2 g1.pk).length : ℚ))).set_finished

/-- Completion branch of the play endpoint (views.py lines 112 to 124):
drop the game key from the session, compute score and average seconds
per turn, mark the game finished and inactive, persist, run
suspicious-game detection; the response gets completed true and the
stored score.  Reading created on the last turn of a game with no Turn
rows would raise AttributeError on None. -/
def completedStep (db2 : DB) (sess1 : Session) (g1 : Game)
    (mc : List ClickCard × Bool) (csrf : Option String) (now : ℚ) : PlayStep :=
  match (turnsOf db2 g1.pk).getLast? with
  | none => ⟨.error (.attributeError "created"), db2, { sess1 with game := none }⟩
  | some lastT =>
      ⟨.ok { status := 200, success := true, click := some mc.1,
             matched := some mc.2, completed := some true,
             score := some (finishedGame db2 g1 lastT now).score, msg := none,
             csrf_token := (aquire_csrf csrf).map smart_text },
       SuspectedGame.is_game_suspected (db2.saveGame (finishedGame db2 g1 lastT now))
         (finishedGame db2 g1 lastT now),
       { sess1 with game := none }⟩

/-- Second-click branch of the play endpoint (views.py lines 93 to 129):
resolve the pair, save one Turn row, advance the session turn counter,
clear the pending click on the game, then check completion and either
run the completion branch or answer with the resolved clicks and the
match flag.  The response dictionary carries the csrf token acquired at
line 70, refreshed through smart_text at line 128. -/
def resolveStep (db : DB) (sess : Session) (game_id : Nat) (g : Game)
    (click1 click2 : Click) (csrf : Option String) (now : ℚ) : PlayStep :=
  match g.match_clicks click1 click2 with
  | .error e => ⟨.error e, db, sess⟩
  | .ok mc =>
      match game_completed (dbAfterTurn db sess game_id g mc now) (g.update_turn false none) with
      | .error e =>
          ⟨.error e, dbAfterTurn db sess game_id g mc now, sessAfterTurn sess game_id⟩
      | .ok compl =>
          if compl then
            completedStep (dbAfterTurn db sess game_id g mc now) (sessAfterTurn sess game_id)
              (g.update_turn false none) mc csrf now
          else
            ⟨.ok { status := 200, success := true, click := some mc.1,
                   matched := some mc.2, completed := none, score := none,
                   msg := none, csrf_token := (aquire_csrf csrf).map smart_text },
             dbAfterTurn db sess game_id g mc now, sessAfterTurn sess game_id⟩

/-- Embeds ContestGameView.post (views.py lines 47 to 129).  With no
game key in the session it answers 500; reading the player key raises
KeyError when absent; a failed game lookup answers 404; otherwise the
first-click or the second-click branch runs.  A missing click key in the
POST body raises KeyError; a missing pending payload on an open turn
raises KeyError when its fields are read inside Game.match. -/
def contestGamePost (db : DB) (sess : Session) (post : PostData)
    (csrf : Option String) (now : ℚ) : PlayStep :=
  match sess.game with
  | none => ⟨.ok resp500, db, sess⟩
  | some game_id =>
    match sess.player with
    | none => ⟨.error (.keyError "player"), db, sess⟩
    | some player =>
      match db.findActiveGame game_id player with
      | none => ⟨.ok resp404, db, sess⟩
      | some g =>
        if g.open_turn then
          match g.hold_card with
          | none => ⟨.error (.keyError "row"), db, sess⟩
          | some click1 =>
            match post.click with
            | none => ⟨.error (.keyError "click"), db, sess⟩
            | some click2 => resolveStep db sess game_id g click1 click2 csrf now
        else
          match post.click with
          | none => ⟨.error (.keyError "click"), db, sess⟩
          | some c => firstClickStep db sess g c

/-- Modelled from the spec: the manager method
stop_active_games_for_player called at views.py line 145 deactivates
every active game of the player. -/
def stop_active_games_for_player (db : DB) (player : String) : DB :=
  { db with
    games := db.games.map (fun g =>
      if g.player == player && g.active then { g with active := false } else g) }

/-- Fresh primary key for a created Game row, standing for the Django
autoincrement: one past the largest key in the table. -/
def DB.nextGamePk (db : DB) : Nat :=
  db.games.foldr (fun g m => max g.pk m) 0 + 1

/-- Modelled from the spec (section 4.1): Game.generate_play_field lays
out each card id exactly twice over a rows-by-columns grid,
deterministically in the seed; the shuffle is abstracted to the
canonical paired arrangement, pairing and determinism being the
documented properties.  views.py line 158 keeps component zero of the
returned pair. -/
def Game.generate_play_field (rows cols : Nat) (seed : String) : List (List Nat) :=
  (List.range rows).map (fun r => (List.range cols).map (fun c => (r * cols + c) / 2 + 1))

/-- Embeds the static asset resolver used by get_game_context: maps a
relative asset path to its served location. -/
def staticPath (p : String) : String := String.append "/static/" p

/-- The game_data dictionary built by ContestView.get_game_context
(views.py lines 169 to 182). -/
structure GameData where
  success : Bool
  name : String
  best_score : ℚ
  rows : Nat
  cols : Nat
  pieces : List String
  backPiece : String
  font_url : String
  font_family : String
  audio_win : String
  audio_hit : String
  audio_miss : String
deriving DecidableEq, Repr

/-- Insertion into a list sorted ascending by score, the order_by score
of views.py line 167. -/
def insertByScore (g : Game) : List Game → List Game
  | [] => [g]
  | h :: t => if g.score ≤ h.score then g :: h :: t else h :: insertByScore g t

/-- Ascending sort by score, the order_by score of views.py line 167. -/
def orderByScore (l : List Game) : List Game :=
  l.foldr insertByScore []

/-- Embeds ContestView.get_game_context (views.py lines 164 to 185).
The query filters the games of the player with positive score, ordered
ascending by score; line 172 then reads attribute score on the query
set itself, which Python answers with AttributeError whenever the query
set is nonempty, a query set having no score attribute; with an empty
(falsy) query set the conditional expression yields Decimal zero. -/
def ContestView.get_game_context (db : DB) (player : String) (rows cols : Nat) :
    Except PyError GameData :=
  let high_score_game :=
    orderByScore (db.games.filter (fun g => g.player == player && decide ((0:ℚ) < g.score)))
  if high_score_game.isEmpty then
    .ok { success := true, name := "Memory",
          best_score := 0,
          rows := rows, cols := cols,
          pieces := (List.range 10).map
            (fun i => staticPath ("img/memory/stack/" ++ toString (i + 1) ++ ".jpg")),
          backPiece := staticPath "img/memory/card-backside-default.png",
          font_url := staticPath "games/fonts/press-start-2p.css",
          font_family := "Press Start 2P",
          audio_win := staticPath "games/sfx/memory-win.wav",
          audio_hit := staticPath "games/sfx/memory-hit.wav",
          audio_miss := staticPath "games/sfx/memory-miss.wav" }
  else
    .error (.attributeError "score")

/-- Outcome of one start request: the rendered game data or the uncaught
exception, together with the database and session as left behind. -/
structure StartStep where
  result : Except PyError GameData
  db : DB
  sess : Session
deriving Repr

/-- Embeds ContestView.get_context_data (views.py lines 138 to 162):
store the chosen player in the session, write a fresh game_id hex, stop
the active games of the player, drop stale game and click keys from the
session, create and persist a new active two-by-three game, bind its
primary key into the session, and render the game context.  The chosen
player, the seed and the uuid hex arrive as parameters, standing for
the random draws of lines 140, 142 and 155. -/
def contestViewGet (db : DB) (sess : Session) (player : String)
    (seed uuidHex : String) (now : ℚ) : StartStep :=
  let sess1 := { sess with player := some player, game_id := some uuidHex }
  let db1 := stop_active_games_for_player db player
  let sess2 := { sess1 with game := none, click := none }
  let pk := db1.nextGamePk
  let g : Game := { pk := pk, player := player,
                    playfield := Game.generate_play_field 2 3 seed, seed := seed,
                    active := true, finished := false, score := 0, time := 0,
                    created := now, open_turn := false, hold_card := none }
  let db2 := db1.saveGame g
  let sess3 := { sess2 with game := some pk }
  ⟨ContestView.get_game_context db2 player 2 3, db2, sess3⟩

/-- Modelled from the spec: the manager method get_player_best_score
fetches the best score of the player, zero when the player has none. -/
def get_player_best_score (db : DB) (player : String) : ℚ :=
  ((db.games.filter (fun g => g.player == player)).map (fun g => g.score)).foldr max 0

/-- Modelled from the spec: the manager method get_highscores fetches
the games ordered by score, best first. -/
def get_highscores (db : DB) : List Game :=
  (orderByScore db.games).reverse

/-- Keeps the first game of each player in the given order. -/
def dedupPlayers : List Game → List String → List Game
  | [], _ => []
  | g :: t, seen =>
      if seen.contains g.player then dedupPlayers t seen
      else g :: dedupPlayers t (g.player :: seen)

/-- Modelled from the spec: the manager method get_unique_highscores
fetches the best game of each player, best first, paired with the
matching player names; views.py line 200 slices the returned pair, a
no-op on a two-tuple, and keeps component zero. -/
def get_unique_highscores (db : DB) : List Game × List String :=
  let u := dedupPlayers (get_highscores db) []
  (u, u.map (fun g => g.player))

/-- The template context of the highscore page. -/
structure HighscoreContext where
  player : String
  best_score : ℚ
  highscores : List Game
  unique_highscores : List Game
deriving Repr

/-- Embeds ContestHighscoreView.get_context_data (views.py lines 195 to
201): reading the player key of the session raises KeyError when it is
absent; otherwise the context carries the best score of the player, the
top five highscores, and the unique-player highscores. -/
def contestHighscoreGet (db : DB) (sess : Session) : Except PyError HighscoreContext :=
  match sess.player with
  | none => .error (.keyError "player")
  | some p =>
      .ok { player := p, best_score := get_player_best_score db p,
            highscores := (get_highscores db).take 5,
            unique_highscores := (get_unique_highscores db).1 }

/-- The completed field of the response of a play step, none when the
request raised or the handler did not set the field. -/
def respCompleted (s : PlayStep) : Option Bool :=
  match s.result with
  | .ok r => r.completed
  | .error _ => none

/-- The success field of the response of a play step, none when the
request raised. -/
def respSuccess (s : PlayStep) : Option Bool :=
  match s.result with
  | .ok r => some r.success
  | .error _ => none

/-- The HTTP status of the response of a play step, none when the
request raised. -/
def respStatus (s : PlayStep) : Option Nat :=
  match s.result with
  | .ok r => some r.status
  | .error _ => none

/-- The score field of the response of a play step, none when the
request raised or the handler did not set the field. -/
def respScore (s : PlayStep) : Option ℚ :=
  match s.result with
  | .ok r => r.score
  | .error _ => none

/-- The match field of the response of a play step, none when the
request raised or the handler did not set the field. -/
def respMatched (s : PlayStep) : Option Bool :=
  match s.result with
  | .ok r => r.matched
  | .error _ => none

/-- The csrf_token field of the response of a play step, none when the
request raised or the handler did not set the field. -/
def respCsrf (s : PlayStep) : Option String :=
  match s.result with
  | .ok r => r.csrf_token
  | .error _ => none

/-- The click field of the response of a play step, none when the
request raised or the handler did not set the field. -/
def respClick (s : PlayStep) : Option (List ClickCard) :=
  match s.result with
  | .ok r => r.click
  | .error _ => none

/-- Average seconds per turn in the words of the specification: creation
timestamp of the last Turn row of the game minus the given creation
timestamp, divided by the number of its Turn rows. -/
def avgTurnTime (db : DB) (pk : Nat) (created : ℚ) : Option ℚ :=
  match (turnsOf db pk).getLast? with
  | none => none
  | some lastT => some ((lastT.created - created) / ((turnsOf db pk).length : ℚ))

/-- The stored average turn time of the game row with the given key. -/
def timeOfGame (db : DB) (pk : Nat) : Option ℚ :=
  (db.findGamePk pk).map (fun g => g.time)

/-- The number of active unfinished games of a player. -/
def activeCount (db : DB) (p : String) : Nat :=
  (db.games.filter (fun g => g.player == p && g.active && !g.finished)).length

/-- Invariant of the specification: at most one active unfinished game
per player. -/
def oneActiveInv (db : DB) : Prop :=
  ∀ p, activeCount db p ≤ 1

/-- Primary keys of the Game table are pairwise distinct. -/
def pksNodup (db : DB) : Prop :=
  (db.games.map (fun g => g.pk)).Nodup

/- Auxiliary lemmas about the store operations. -/

theorem turnsOf_saveGame (db : DB) (g : Game) (gid : Nat) :
    turnsOf (db.saveGame g) gid = turnsOf db gid := rfl

theorem turnsOf_suspect (db : DB) (g : Game) (gid : Nat) :
    turnsOf (SuspectedGame.is_game_suspected db g) gid = turnsOf db gid := by
  unfold SuspectedGame.is_game_suspected
  split <;> rfl

theorem games_saveTurn (db : DB) (t : Turn) : (db.saveTurn t).games = db.games := rfl

theorem games_suspect (db : DB) (g : Game) :
    (SuspectedGame.is_game_suspected db g).games = db.games := by
  unfold SuspectedGame.is_game_suspected
  split <;> rfl

theorem find?_replace_self {α : Type} (key : α → Nat) (l : List α) (a : α) :
    (l.map (fun x => if key x == key a then a else x)).find? (fun x => key x == key a)
      = if l.any (fun x => key x == key a) then some a else none := by
  induction l with
  | nil => rfl
  | cons b t ih =>
      simp only [List.map_cons, List.any_cons]
      by_cases hc : key b = key a
      · simp [List.find?_cons, hc]
      · have hc' : (key b == key a) = false := by simpa using hc
        rw [if_neg (by simp [hc'])]
        simp only [List.find?_cons, hc', Bool.false_or]
        exact ih

theorem find?_replace_ne {α : Type} (key : α → Nat) (l : List α) (a : α) (p : Nat)
    (hne : key a ≠ p) :
    (l.map (fun x => if key x == key a then a else x)).find? (fun x => key x == p)
      = l.find? (fun x => key x == p) := by
  induction l with
  | nil => rfl
  | cons b t ih =>
      simp only [List.map_cons]
      by_cases hc : key b = key a
      · have h1 : (key a == p) = false := by simpa using hne
        have h2 : (key b == p) = false := by rw [hc]; exact h1
        have hc' : (key b == key a) = true := by simpa using hc
        rw [if_pos hc']
        simp only [List.find?_cons, h1, h2]
        exact ih
      · have hc' : (key b == key a) = false := by simpa using hc
        rw [if_neg (by simp [hc'])]
        simp only [List.find?_cons]
        cases hd : (key b == p)
        · simp only [hd]
          exact ih
        · simp only [hd]

theorem mem_save {α : Type} (key : α → Nat) (l : List α) (a : α) :
    a ∈ (if l.any (fun x => key x == key a)
          then l.map (fun x => if key x == key a then a else x)
          else l ++ [a]) := by
  split
  · next h =>
      obtain ⟨x, hx, hkx⟩ := List.any_eq_true.mp h
      exact List.mem_map.mpr ⟨x, hx, by simp [hkx]⟩
  · exact List.mem_append.mpr (Or.inr (by simp))

theorem DB.findGamePk_saveGame_self (db : DB) (g : Game) :
    (db.saveGame g).findGamePk g.pk = some g := by
  unfold DB.saveGame DB.findGamePk
  cases hany : db.games.any (fun x => x.pk == g.pk)
  · simp only [hany, Bool.false_eq_true, if_false]
    rw [List.find?_append]
    have h1 : db.games.find? (fun x => x.pk == g.pk) = none :=
      List.find?_eq_none.mpr (fun x hx => by
        simpa using (List.any_eq_false.mp hany) x hx)
    simp [h1]
  · simp only [hany, if_true]
    rw [find?_replace_self (fun x => x.pk) db.games g, hany]
    simp

theorem DB.findGamePk_saveGame_ne (db : DB) (g : Game) (pk : Nat) (hne : g.pk ≠ pk) :
    (db.saveGame g).findGamePk pk = db.findGamePk pk := by
  unfold DB.saveGame DB.findGamePk
  cases hany : db.games.any (fun x => x.pk == g.pk)
  · simp only [hany, Bool.false_eq_true, if_false]
    rw [List.find?_append]
    have h1 : List.find? (fun x => x.pk == pk) [g] = none := by simp [hne]
    cases hf : db.games.find? (fun x => x.pk == pk) <;> simp [hf, h1]
  · simp only [hany, if_true]
    exact find?_replace_ne (fun x => x.pk) db.games g pk hne

theorem DB.findTurnPk_saveTurn_self (db : DB) (t : Turn) :
    (db.saveTurn t).findTurnPk t.pk = some t := by
  unfold DB.saveTurn DB.findTurnPk
  cases hany : db.turns.any (fun x => x.pk == t.pk)
  · simp only [hany, Bool.false_eq_true, if_false]
    rw [List.find?_append]
    have h1 : db.turns.find? (fun x => x.pk == t.pk) = none :=
      List.find?_eq_none.mpr (fun x hx => by
        simpa using (List.any_eq_false.mp hany) x hx)
    simp [h1]
  · simp only [hany, if_true]
    rw [find?_replace_self (fun x => x.pk) db.turns t, hany]
    simp

theorem mem_saveTurn (db : DB) (t : Turn) : t ∈ (db.saveTurn t).turns := by
  unfold DB.saveTurn
  exact mem_save (fun x => x.pk) db.turns t

theorem saveTurn_length_fresh (db : DB) (t : Turn)
    (h : db.turns.any (fun x => x.pk == t.pk) = false) :
    (db.saveTurn t).turns.length = db.turns.length + 1 := by
  unfold DB.saveTurn
  simp [h]

@[simp] theorem update_turn_pk (g : Game) (b : Bool) (c : Option Click) :
    (g.update_turn b c).pk = g.pk := rfl

@[simp] theorem update_turn_playfield (g : Game) (b : Bool) (c : Option Click) :
    (g.update_turn b c).playfield = g.playfield := rfl

@[simp] theorem update_turn_player (g : Game) (b : Bool) (c : Option Click) :
    (g.update_turn b c).player = g.player := rfl

@[simp] theorem update_turn_created (g : Game) (b : Bool) (c : Option Click) :
    (g.update_turn b c).created = g.created := rfl

@[simp] theorem update_turn_active (g : Game) (b : Bool) (c : Option Click) :
    (g.update_turn b c).active = g.active := rfl

@[simp] theorem update_turn_finished (g : Game) (b : Bool) (c : Option Click) :
    (g.update_turn b c).finished = g.finished := rfl

@[simp] theorem update_turn_open (g : Game) (b : Bool) (c : Option Click) :
    (g.update_turn b c).open_turn = b := rfl

@[simp] theorem update_turn_hold (g : Game) (b : Bool) (c : Option Click) :
    (g.update_turn b c).hold_card = c := rfl

@[simp] theorem end_game_pk (g : Game) (s t : ℚ) : (g.end_game s t).pk = g.pk := rfl

@[simp] theorem end_game_playfield (g : Game) (s t : ℚ) :
    (g.end_game s t).playfield = g.playfield := rfl

@[simp] theorem end_game_player (g : Game) (s t : ℚ) :
    (g.end_game s t).player = g.player := rfl

@[simp] theorem end_game_created (g : Game) (s t : ℚ) :
    (g.end_game s t).created = g.created := rfl

@[simp] theorem end_game_score (g : Game) (s t : ℚ) : (g.end_game s t).score = s := rfl

@[simp] theorem end_game_time (g : Game) (s t : ℚ) : (g.end_game s t).time = t := rfl

@[simp] theorem end_game_active (g : Game) (s t : ℚ) :
    (g.end_game s t).active = false := rfl

@[simp] theorem end_game_finished (g : Game) (s t : ℚ) :
    (g.end_game s t).finished = g.finished := rfl

@[simp] theorem set_finished_pk (g : Game) : g.set_finished.pk = g.pk := rfl

@[simp] theorem set_finished_playfield (g : Game) :
    g.set_finished.playfield = g.playfield := rfl

@[simp] theorem set_finished_player (g : Game) :
    g.set_finished.player = g.player := rfl

@[simp] theorem set_finished_created (g : Game) :
    g.set_finished.created = g.created := rfl

@[simp] theorem set_finished_score (g : Game) : g.set_finished.score = g.score := rfl

@[simp] theorem set_finished_time (g : Game) : g.set_finished.time = g.time := rfl

@[simp] theorem set_finished_active (g : Game) :
    g.set_finished.active = g.active := rfl

@[simp] theorem set_finished_finished (g : Game) :
    g.set_finished.finished = true := rfl

@[simp] theorem end_game_open (g : Game) (s t : ℚ) :
    (g.end_game s t).open_turn = g.open_turn := rfl

@[simp] theorem end_game_hold (g : Game) (s t : ℚ) :
    (g.end_game s t).hold_card = g.hold_card := rfl

@[simp] theorem set_finished_open (g : Game) :
    g.set_finished.open_turn = g.open_turn := rfl

@[simp] theorem set_finished_hold (g : Game) :
    g.set_finished.hold_card = g.hold_card := rfl

theorem turns_saveGame (db : DB) (g : Game) : (db.saveGame g).turns = db.turns := rfl

theorem turns_suspect (db : DB) (g : Game) :
    (SuspectedGame.is_game_suspected db g).turns = db.turns := by
  unfold SuspectedGame.is_game_suspected
  split <;> rfl

theorem findTurnPk_saveGame (db : DB) (g : Game) (pk : Nat) :
    (db.saveGame g).findTurnPk pk = db.findTurnPk pk := rfl

theorem findTurnPk_suspect (db : DB) (g : Game) (pk : Nat) :
    (SuspectedGame.is_game_suspected db g).findTurnPk pk = db.findTurnPk pk := by
  unfold SuspectedGame.is_game_suspected
  split <;> rfl

theorem findGamePk_suspect (db : DB) (g : Game) (pk : Nat) :
    (SuspectedGame.is_game_suspected db g).findGamePk pk = db.findGamePk pk := by
  unfold SuspectedGame.is_game_suspected
  split <;> rfl

theorem aquire_csrf_map_smart_text (csrf : Option String) :
    (aquire_csrf csrf).map smart_text = csrf := by
  cases csrf <;> rfl

theorem length_filter_map_le {α : Type} (l : List α) (f : α → α) (p : α → Bool)
    (h : ∀ x ∈ l, p (f x) = true → p x = true) :
    ((l.map f).filter p).length ≤ (l.filter p).length := by
  induction l with
  | nil => simp
  | cons a t ih =>
      have ht := ih (fun x hx => h x (List.mem_cons_of_mem a hx))
      simp only [List.map_cons, List.filter_cons]
      cases hfa : p (f a)
      · cases hpa : p a
        · simpa using ht
        · simpa using Nat.le_succ_of_le ht
      · have hpa : p a = true := h a (List.mem_cons_self a t) hfa
        simpa [hpa] using Nat.succ_le_succ ht

/- Bridge between the integer completion test and the rational pair
count of the specification. -/

theorem completed_cast_iff (m c : ℕ) : (2 * m = c) ↔ ((m : ℚ) = (c : ℚ) / 2) := by
  rw [eq_div_iff (by norm_num : (2:ℚ) ≠ 0)]
  constructor
  · intro h
    exact_mod_cast (by omega : m * 2 = c)
  · intro h
    have h2 : m * 2 = c := by exact_mod_cast h
    omega

theorem game_completed_eq (db : DB) (g : Game) (row0 : List Nat)
    (h : g.playfield[0]? = some row0) :
    game_completed db g = .ok (2 * matchedCount db g.pk == cellCount g) := by
  unfold game_completed cellCount
  have h' : g.playfield.get? 0 = some row0 := by
    rw [List.get?_eq_getElem?]
    exact h
  rw [h']
  have hd : g.playfield.getD 0 [] = row0 := by
    simp [List.getD, h]
  rw [hd]

theorem game_completed_true_iff (db : DB) (g : Game) (row0 : List Nat) (b : Bool)
    (h : g.playfield[0]? = some row0)
    (hb : game_completed db g = .ok b) :
    b = true ↔ ((matchedCount db g.pk : ℚ) = pairsOf g) := by
  rw [game_completed_eq db g row0 h] at hb
  have hb' : b = (2 * matchedCount db g.pk == cellCount g) := by
    injection hb with h1
    exact h1.symm
  subst hb'
  rw [beq_iff_eq]
  unfold pairsOf
  exact completed_cast_iff _ _

/- Branch reduction lemmas for the play endpoint. -/

theorem contestGamePost_500 (db : DB) (sess : Session) (post : PostData)
    (csrf : Option String) (now : ℚ) (h : sess.game = none) :
    contestGamePost db sess post csrf now = ⟨.ok resp500, db, sess⟩ := by
  obtain ⟨sp, sg, st, sc, sgid⟩ := sess
  have h' : sg = none := h
  subst h'
  rfl

theorem contestGamePost_keyerr (db : DB) (sess : Session) (post : PostData)
    (csrf : Option String) (now : ℚ) (gid : Nat)
    (hg : sess.game = some gid) (hp : sess.player = none) :
    contestGamePost db sess post csrf now = ⟨.error (.keyError "player"), db, sess⟩ := by
  obtain ⟨sp, sg, st, sc, sgid⟩ := sess
  have hg' : sg = some gid := hg
  have hp' : sp = none := hp
  subst hg'; subst hp'
  rfl

theorem contestGamePost_404 (db : DB) (sess : Session) (post : PostData)
    (csrf : Option String) (now : ℚ) (gid : Nat) (player : String)
    (hg : sess.game = some gid) (hp : sess.player = some player)
    (hfind : db.findActiveGame gid player = none) :
    contestGamePost db sess post csrf now = ⟨.ok resp404, db, sess⟩ := by
  obtain ⟨sp, sg, st, sc, sgid⟩ := sess
  have hg' : sg = some gid := hg
  have hp' : sp = some player := hp
  subst hg'; subst hp'
  simp only [contestGamePost, hfind]

theorem contestGamePost_first (db : DB) (sess : Session) (post : PostData)
    (csrf : Option String) (now : ℚ) (gid : Nat) (player : String) (g : Game) (c : Click)
    (hg : sess.game = some gid) (hp : sess.player = some player)
    (hfind : db.findActiveGame gid player = some g)
    (hopen : g.open_turn = false) (hclick : post.click = some c) :
    contestGamePost db sess post csrf now = firstClickStep db sess g c := by
  obtain ⟨sp, sg, st, sc, sgid⟩ := sess
  obtain ⟨pc⟩ := post
  have hg' : sg = some gid := hg
  have hp' : sp = some player := hp
  have hc' : pc = some c := hclick
  subst hg'; subst hp'; subst hc'
  simp only [contestGamePost, hfind, hopen]
  rfl

theorem contestGamePost_first_keyerr (db : DB) (sess : Session) (post : PostData)
    (csrf : Option String) (now : ℚ) (gid : Nat) (player : String) (g : Game)
    (hg : sess.game = some gid) (hp : sess.player = some player)
    (hfind : db.findActiveGame gid player = some g)
    (hopen : g.open_turn = false) (hclick : post.click = none) :
    contestGamePost db sess post csrf now = ⟨.error (.keyError "click"), db, sess⟩ := by
  obtain ⟨sp, sg, st, sc, sgid⟩ := sess
  obtain ⟨pc⟩ := post
  have hg' : sg = some gid := hg
  have hp' : sp = some player := hp
  have hc' : pc = none := hclick
  subst hg'; subst hp'; subst hc'
  simp only [contestGamePost, hfind, hopen]
  rfl

theorem contestGamePost_hold_keyerr (db : DB) (sess : Session) (post : PostData)
    (csrf : Option String) (now : ℚ) (gid : Nat) (player : String) (g : Game)
    (hg : sess.game = some gid) (hp : sess.player = some player)
    (hfind : db.findActiveGame gid player = some g)
    (hopen : g.open_turn = true) (hhold : g.hold_card = none) :
    contestGamePost db sess post csrf now = ⟨.error (.keyError "row"), db, sess⟩ := by
  obtain ⟨sp, sg, st, sc, sgid⟩ := sess
  have hg' : sg = some gid := hg
  have hp' : sp = some player := hp
  subst hg'; subst hp'
  simp only [contestGamePost, hfind, hopen, hhold]
  rfl

theorem contestGamePost_click_keyerr (db : DB) (sess : Session) (post : PostData)
    (csrf : Option String) (now : ℚ) (gid : Nat) (player : String) (g : Game) (c1 : Click)
    (hg : sess.game = some gid) (hp : sess.player = some player)
    (hfind : db.findActiveGame gid player = some g)
    (hopen : g.open_turn = true) (hhold : g.hold_card = some c1)
    (hclick : post.click = none) :
    contestGamePost db sess post csrf now = ⟨.error (.keyError "click"), db, sess⟩ := by
  obtain ⟨sp, sg, st, sc, sgid⟩ := sess
  obtain ⟨pc⟩ := post
  have hg' : sg = some gid := hg
  have hp' : sp = some player := hp
  have hc' : pc = none := hclick
  subst hg'; subst hp'; subst hc'
  simp only [contestGamePost, hfind, hopen, hhold]
  rfl

theorem contestGamePost_resolve (db : DB) (sess : Session) (post : PostData)
    (csrf : Option String) (now : ℚ) (gid : Nat) (player : String) (g : Game)
    (c1 c2 : Click)
    (hg : sess.game = some gid) (hp : sess.player = some player)
    (hfind : db.findActiveGame gid player = some g)
    (hopen : g.open_turn = true) (hhold : g.hold_card = some c1)
    (hclick : post.click = some c2) :
    contestGamePost db sess post csrf now = resolveStep db sess gid g c1 c2 csrf now := by
  obtain ⟨sp, sg, st, sc, sgid⟩ := sess
  obtain ⟨pc⟩ := post
  have hg' : sg = some gid := hg
  have hp' : sp = some player := hp
  have hc' : pc = some c2 := hclick
  subst hg'; subst hp'; subst hc'
  simp only [contestGamePost, hfind, hopen, hhold]
  rfl

/- Facts about the second-click branch shared by several claims. -/

theorem pairsOf_update (g : Game) (b : Bool) (c : Option Click) :
    pairsOf (g.update_turn b c) = pairsOf g := by
  unfold pairsOf cellCount
  simp

theorem newTurn_mem_turnsOf (db : DB) (sess : Session) (gid : Nat) (g : Game)
    (mc : List ClickCard × Bool) (now : ℚ) :
    newTurn sess gid g mc now ∈ turnsOf (dbAfterTurn db sess gid g mc now) g.pk := by
  unfold turnsOf
  refine List.mem_filter.mpr ⟨?_, ?_⟩
  · exact mem_saveTurn db (newTurn sess gid g mc now)
  · simp [newTurn]

theorem turnsOf_dbAfterTurn_ne_nil (db : DB) (sess : Session) (gid : Nat) (g : Game)
    (mc : List ClickCard × Bool) (now : ℚ) :
    turnsOf (dbAfterTurn db sess gid g mc now) g.pk ≠ [] := by
  intro hempty
  have hm := newTurn_mem_turnsOf db sess gid g mc now
  rw [hempty] at hm
  exact absurd hm (List.not_mem_nil _)

theorem resolveStep_completed_iff (db : DB) (sess : Session) (gid : Nat) (g : Game)
    (c1 c2 : Click) (csrf : Option String) (now : ℚ)
    (hok : (resolveStep db sess gid g c1 c2 csrf now).result.isOk = true) :
    (respCompleted (resolveStep db sess gid g c1 c2 csrf now) = some true ↔
      (matchedCount (resolveStep db sess gid g c1 c2 csrf now).db g.pk : ℚ) = pairsOf g)
    ∧ (respCompleted (resolveStep db sess gid g c1 c2 csrf now) = some true →
        (respScore (resolveStep db sess gid g c1 c2 csrf now)).isSome = true
        ∧ respSuccess (resolveStep db sess gid g c1 c2 csrf now) = some true) := by
  cases hmc : g.match_clicks c1 c2 with
  | error e =>
      unfold resolveStep at hok
      simp [hmc, Except.isOk, Except.toBool] at hok
  | ok mc =>
      cases hrow : g.playfield[0]? with
      | none =>
          have hgc : game_completed (dbAfterTurn db sess gid g mc now)
              (g.update_turn false none) = .error .indexError := by
            unfold game_completed
            simp [hrow]
          unfold resolveStep at hok
          simp [hmc, hgc, Except.isOk, Except.toBool] at hok
      | some row0 =>
          have hrow' : (g.update_turn false none).playfield[0]? = some row0 := by
            simp [hrow]
          cases hgc : game_completed (dbAfterTurn db sess gid g mc now)
              (g.update_turn false none) with
          | error e =>
              unfold resolveStep at hok
              simp [hmc, hgc, Except.isOk, Except.toBool] at hok
          | ok compl =>
              have hiff := game_completed_true_iff (dbAfterTurn db sess gid g mc now)
                (g.update_turn false none) row0 compl hrow' hgc
              rw [update_turn_pk, pairsOf_update] at hiff
              cases compl with
              | false =>
                  have hstep : resolveStep db sess gid g c1 c2 csrf now =
                      ⟨.ok { status := 200, success := true, click := some mc.1,
                             matched := some mc.2, completed := none, score := none,
                             msg := none, csrf_token := (aquire_csrf csrf).map smart_text },
                       dbAfterTurn db sess gid g mc now, sessAfterTurn sess gid⟩ := by
                    unfold resolveStep
                    simp only [hmc, hgc, Bool.false_eq_true, if_false]
                  rw [hstep]
                  constructor
                  · constructor
                    · intro hcc
                      exact absurd hcc (by simp [respCompleted])
                    · intro hq
                      simpa using hiff.mpr hq
                  · intro hcc
                    exact absurd hcc (by simp [respCompleted])
              | true =>
                  have hne := turnsOf_dbAfterTurn_ne_nil db sess gid g mc now
                  have hsome : (turnsOf (dbAfterTurn db sess gid g mc now) g.pk).getLast?.isSome
                      = true := List.getLast?_isSome.mpr hne
                  obtain ⟨lastT, hlast⟩ := Option.isSome_iff_exists.mp hsome
                  have hstep : resolveStep db sess gid g c1 c2 csrf now =
                      ⟨.ok { status := 200, success := true, click := some mc.1,
                             matched := some mc.2, completed := some true,
                             score := some (finishedGame (dbAfterTurn db sess gid g mc now)
                               (g.update_turn false none) lastT now).score,
                             msg := none,
                             csrf_token := (aquire_csrf csrf).map smart_text },
                       SuspectedGame.is_game_suspected
                         ((dbAfterTurn db sess gid g mc now).saveGame
                           (finishedGame (dbAfterTurn db sess gid g mc now)
                             (g.update_turn false none) lastT now))
                         (finishedGame (dbAfterTurn db sess gid g mc now)
                           (g.update_turn false none) lastT now),
                       { sessAfterTurn sess gid with game := none }⟩ := by
                    unfold resolveStep completedStep
                    simp only [hmc, hgc, eq_self_iff_true, if_true, update_turn_pk, hlast]
                  rw [hstep]
                  have hmc2 : matchedCount
                      (SuspectedGame.is_game_suspected
                        ((dbAfterTurn db sess gid g mc now).saveGame
                          (finishedGame (dbAfterTurn db sess gid g mc now)
                            (g.update_turn false none) lastT now))
                        (finishedGame (dbAfterTurn db sess gid g mc now)
                          (g.update_turn false none) lastT now)) g.pk
                      = matchedCount (dbAfterTurn db sess gid g mc now) g.pk := by
                    unfold matchedCount
                    rw [turnsOf_suspect, turnsOf_saveGame]
                  constructor
                  · constructor
                    · intro _
                      rw [hmc2]
                      exact hiff.mp rfl
                    · intro _
                      rfl
                  · intro _
                    exact ⟨by simp [respScore], by simp [respSuccess]⟩

theorem resolveStep_state (db : DB) (sess : Session) (gid : Nat) (g : Game)
    (c1 c2 : Click) (csrf : Option String) (now : ℚ) (mc : List ClickCard × Bool)
    (hmcl : g.match_clicks c1 c2 = .ok mc)
    (hok : (resolveStep db sess gid g c1 c2 csrf now).result.isOk = true) :
    (resolveStep db sess gid g c1 c2 csrf now).db.turns
        = (db.saveTurn (newTurn sess gid g mc now)).turns
    ∧ (resolveStep db sess gid g c1 c2 csrf now).db.findTurnPk
        (sess.turn.getD (gid * 10 + 1)) = some (newTurn sess gid g mc now)
    ∧ ((resolveStep db sess gid g c1 c2 csrf now).db.findGamePk g.pk).map Game.open_turn
        = some false
    ∧ ((resolveStep db sess gid g c1 c2 csrf now).db.findGamePk g.pk).map Game.hold_card
        = some none
    ∧ respMatched (resolveStep db sess gid g c1 c2 csrf now) = some mc.2
    ∧ (resolveStep db sess gid g c1 c2 csrf now).sess.turn
        = some (sess.turn.getD (gid * 10 + 1) + 1)
    ∧ respCsrf (resolveStep db sess gid g c1 c2 csrf now) = csrf
    ∧ (db.turns.any (fun x => x.pk == sess.turn.getD (gid * 10 + 1)) = false →
        (resolveStep db sess gid g c1 c2 csrf now).db.turns.length = db.turns.length + 1)
    ∧ (respCompleted (resolveStep db sess gid g c1 c2 csrf now) = some true →
        timeOfGame (resolveStep db sess gid g c1 c2 csrf now).db g.pk
            = avgTurnTime (resolveStep db sess gid g c1 c2 csrf now).db g.pk g.created
        ∧ (avgTurnTime (resolveStep db sess gid g c1 c2 csrf now).db g.pk g.created).isSome
            = true) := by
  cases hrow : g.playfield[0]? with
  | none =>
      have hgc : game_completed (dbAfterTurn db sess gid g mc now)
          (g.update_turn false none) = .error .indexError := by
        unfold game_completed
        simp [hrow]
      unfold resolveStep at hok
      simp [hmcl, hgc, Except.isOk, Except.toBool] at hok
  | some row0 =>
      cases hgc : game_completed (dbAfterTurn db sess gid g mc now)
          (g.update_turn false none) with
      | error e =>
          unfold resolveStep at hok
          simp [hmcl, hgc, Except.isOk, Except.toBool] at hok
      | ok compl =>
          cases compl with
          | false =>
              have hstep : resolveStep db sess gid g c1 c2 csrf now =
                  ⟨.ok { status := 200, success := true, click := some mc.1,
                         matched := some mc.2, completed := none, score := none,
                         msg := none, csrf_token := (aquire_csrf csrf).map smart_text },
                   dbAfterTurn db sess gid g mc now, sessAfterTurn sess gid⟩ := by
                unfold resolveStep
                simp only [hmcl, hgc, Bool.false_eq_true, if_false]
              rw [hstep]
              refine ⟨rfl, ?_, ?_, ?_, by simp [respMatched], rfl,
                by simp [respCsrf, aquire_csrf_map_smart_text], ?_, ?_⟩
              · show (dbAfterTurn db sess gid g mc now).findTurnPk _ = _
                unfold dbAfterTurn
                rw [findTurnPk_saveGame]
                exact DB.findTurnPk_saveTurn_self db (newTurn sess gid g mc now)
              · show ((dbAfterTurn db sess gid g mc now).findGamePk g.pk).map Game.open_turn = _
                unfold dbAfterTurn
                have h := DB.findGamePk_saveGame_self
                  (db.saveTurn (newTurn sess gid g mc now)) (g.update_turn false none)
                rw [update_turn_pk] at h
                rw [h]
                rfl
              · show ((dbAfterTurn db sess gid g mc now).findGamePk g.pk).map Game.hold_card = _
                unfold dbAfterTurn
                have h := DB.findGamePk_saveGame_self
                  (db.saveTurn (newTurn sess gid g mc now)) (g.update_turn false none)
                rw [update_turn_pk] at h
                rw [h]
                rfl
              · intro hfresh
                show (dbAfterTurn db sess gid g mc now).turns.length = _
                unfold dbAfterTurn
                rw [turns_saveGame]
                exact saveTurn_length_fresh db (newTurn sess gid g mc now) hfresh
              · intro hcc
                simp [respCompleted] at hcc
          | true =>
              have hne := turnsOf_dbAfterTurn_ne_nil db sess gid g mc now
              have hsome : (turnsOf (dbAfterTurn db sess gid g mc now) g.pk).getLast?.isSome
                  = true := List.getLast?_isSome.mpr hne
              obtain ⟨lastT, hlast⟩ := Option.isSome_iff_exists.mp hsome
              have hstep : resolveStep db sess gid g c1 c2 csrf now =
                  ⟨.ok { status := 200, success := true, click := some mc.1,
                         matched := some mc.2, completed := some true,
                         score := some (finishedGame (dbAfterTurn db sess gid g mc now)
                           (g.update_turn false none) lastT now).score,
                         msg := none,
                         csrf_token := (aquire_csrf csrf).map smart_text },
                   SuspectedGame.is_game_suspected
                     ((dbAfterTurn db sess gid g mc now).saveGame
                       (finishedGame (dbAfterTurn db sess gid g mc now)
                         (g.update_turn false none) lastT now))
                     (finishedGame (dbAfterTurn db sess gid g mc now)
                       (g.update_turn false none) lastT now),
                   { sessAfterTurn sess gid with game := none }⟩ := by
                unfold resolveStep completedStep
                simp only [hmcl, hgc, eq_self_iff_true, if_true, update_turn_pk, hlast]
              have hfin : ((dbAfterTurn db sess gid g mc now).saveGame
                  (finishedGame (dbAfterTurn db sess gid g mc now)
                    (g.update_turn false none) lastT now)).findGamePk g.pk
                  = some (finishedGame (dbAfterTurn db sess gid g mc now)
                      (g.update_turn false none) lastT now) := by
                have h := DB.findGamePk_saveGame_self (dbAfterTurn db sess gid g mc now)
                  (finishedGame (dbAfterTurn db sess gid g mc now)
                    (g.update_turn false none) lastT now)
                simpa [finishedGame] using h
              rw [hstep]
              refine ⟨?_, ?_, ?_, ?_, by simp [respMatched], rfl,
                by simp [respCsrf, aquire_csrf_map_smart_text], ?_, ?_⟩
              · show (SuspectedGame.is_game_suspected _ _).turns = _
                rw [turns_suspect, turns_saveGame]
                rfl
              · show (SuspectedGame.is_game_suspected _ _).findTurnPk _ = _
                rw [findTurnPk_suspect, findTurnPk_saveGame]
                show (dbAfterTurn db sess gid g mc now).findTurnPk _ = _
                unfold dbAfterTurn
                rw [findTurnPk_saveGame]
                exact DB.findTurnPk_saveTurn_self db (newTurn sess gid g mc now)
              · show ((SuspectedGame.is_game_suspected _ _).findGamePk g.pk).map Game.open_turn = _
                rw [findGamePk_suspect, hfin]
                rfl
              · show ((SuspectedGame.is_game_suspected _ _).findGamePk g.pk).map Game.hold_card = _
                rw [findGamePk_suspect, hfin]
                rfl
              · intro hfresh
                show (SuspectedGame.is_game_suspected _ _).turns.length = _
                rw [turns_suspect, turns_saveGame]
                show (dbAfterTurn db sess gid g mc now).turns.length = _
                unfold dbAfterTurn
                rw [turns_saveGame]
                exact saveTurn_length_fresh db (newTurn sess gid g mc now) hfresh
              · intro _
                constructor
                · show ((SuspectedGame.is_game_suspected _ _).findGamePk g.pk).map Game.time = _
                  rw [findGamePk_suspect, hfin]
                  unfold avgTurnTime
                  have hturns : turnsOf (SuspectedGame.is_game_suspected
                      ((dbAfterTurn db sess gid g mc now).saveGame
                        (finishedGame (dbAfterTurn db sess gid g mc now)
                          (g.update_turn false none) lastT now))
                      (finishedGame (dbAfterTurn db sess gid g mc now)
                        (g.update_turn false none) lastT now)) g.pk
                      = turnsOf (dbAfterTurn db sess gid g mc now) g.pk := by
                    rw [turnsOf_suspect, turnsOf_saveGame]
                  rw [hturns, hlast]
                  rfl
                · unfold avgTurnTime
                  have hturns : turnsOf (SuspectedGame.is_game_suspected
                      ((dbAfterTurn db sess gid g mc now).saveGame
                        (finishedGame (dbAfterTurn db sess gid g mc now)
                          (g.update_turn false none) lastT now))
                      (finishedGame (dbAfterTurn db sess gid g mc now)
                        (g.update_turn false none) lastT now)) g.pk
                      = turnsOf (dbAfterTurn db sess gid g mc now) g.pk := by
                    rw [turnsOf_suspect, turnsOf_saveGame]
                  rw [hturns, hlast]
                  rfl

/- Concrete fixtures used by the witnesses and counterexamples.  The
playfield is the two-by-three grid produced by the generator: cards one
to three, each exactly twice. -/

/-- A two-by-three playfield: three pairs over six cells. -/
def sampleField : List (List Nat) := [[1, 1, 2], [2, 3, 3]]

/-- Game one of player alice, with an open turn holding the click on
cell row one column one (card three). -/
def c1game : Game :=
  { pk := 1, player := "alice", playfield := sampleField, seed := "s",
    active := true, finished := false, score := 0, time := 0, created := 0,
    open_turn := true, hold_card := some ⟨1, 1⟩ }

/-- Store holding game one and its two already matched turns. -/
def c1db : DB :=
  { games := [c1game],
    turns := [⟨11, 1, [], true, 2⟩, ⟨12, 1, [], true, 4⟩],
    suspected := [] }

/-- Session of alice bound to game one with turn counter thirteen. -/
def c1sess : Session :=
  { player := some "alice", game := some 1, turn := some 13,
    click := none, game_id := none }

/-- The second click of the pending round: row one column two, card
three, matching the held click. -/
def c1post : PostData := ⟨some ⟨1, 2⟩⟩

/-- Claim C1: for every request the play endpoint handles on an active
unfinished game, the response declares the game complete, with the
score present and success true, exactly when the round was a second
click and the count of Turn rows with a true match flag in the database
left behind equals rows times columns divided by two of the playfield
of the game. -/
theorem c1_completion_exact (db : DB) (sess : Session) (post : PostData)
    (csrf : Option String) (now : ℚ) (gid : Nat) (player : String) (g : Game)
    (hg : sess.game = some gid) (hp : sess.player = some player)
    (hfind : db.findActiveGame gid player = some g)
    (hok : (contestGamePost db sess post csrf now).result.isOk = true) :
    (respCompleted (contestGamePost db sess post csrf now) = some true ↔
      (g.open_turn = true ∧
        (matchedCount (contestGamePost db sess post csrf now).db g.pk : ℚ) = pairsOf g))
    ∧ (respCompleted (contestGamePost db sess post csrf now) = some true →
        (respScore (contestGamePost db sess post csrf now)).isSome = true
        ∧ respSuccess (contestGamePost db sess post csrf now) = some true) := by
  by_cases hopen : g.open_turn = true
  · cases hhold : g.hold_card with
    | none =>
        rw [contestGamePost_hold_keyerr db sess post csrf now gid player g
          hg hp hfind hopen hhold] at hok
        simp [Except.isOk, Except.toBool] at hok
    | some c1 =>
        cases hpc : post.click with
        | none =>
            rw [contestGamePost_click_keyerr db sess post csrf now gid player g c1
              hg hp hfind hopen hhold hpc] at hok
            simp [Except.isOk, Except.toBool] at hok
        | some c2 =>
            rw [contestGamePost_resolve db sess post csrf now gid player g c1 c2
              hg hp hfind hopen hhold hpc] at hok ⊢
            have h := resolveStep_completed_iff db sess gid g c1 c2 csrf now hok
            exact ⟨⟨fun hcc => ⟨hopen, (h.1).mp hcc⟩, fun hcc => (h.1).mpr hcc.2⟩, h.2⟩
  · have hopen' : g.open_turn = false := Bool.eq_false_iff.mpr hopen
    cases hpc : post.click with
    | none =>
        rw [contestGamePost_first_keyerr db sess post csrf now gid player g
          hg hp hfind hopen' hpc] at hok
        simp [Except.isOk, Except.toBool] at hok
    | some c =>
        rw [contestGamePost_first db sess post csrf now gid player g c
          hg hp hfind hopen' hpc] at hok ⊢
        cases hcard : g.get_card_id c with
        | error e =>
            unfold firstClickStep at hok
            simp [hcard, Except.isOk, Except.toBool] at hok
        | ok card =>
            have hstep : firstClickStep db sess g c =
                ⟨.ok { status := 200, success := true,
                       click := some [⟨c.row, c.column, card⟩],
                       matched := none, completed := none, score := none,
                       msg := none, csrf_token := none },
                 db.saveGame (g.update_turn true (some c)), sess⟩ := by
              unfold firstClickStep
              simp only [hcard]
            rw [hstep]
            refine ⟨⟨fun hcc => absurd hcc (by simp [respCompleted]), fun hcc => ?_⟩,
              fun hcc => absurd hcc (by simp [respCompleted])⟩
            exact absurd hcc.1 hopen

/-- Game two of player bob, with an open turn holding the click on cell
row zero column zero (card one). -/
def c2game : Game :=
  { pk := 2, player := "bob", playfield := sampleField, seed := "s",
    active := true, finished := false, score := 0, time := 0, created := 0,
    open_turn := true, hold_card := some ⟨0, 0⟩ }

/-- Store holding game two of bob and one Turn row with primary key 21
owned by game one, as left behind by another session that played more
than ten turns on game one. -/
def c2db : DB :=
  { games := [c2game],
    turns := [⟨21, 1, [], false, 1⟩],
    suspected := [] }

/-- Fresh session of bob bound to game two, with no turn counter yet:
the default turn key is two times ten plus one, which is 21. -/
def c2sess : Session :=
  { player := some "bob", game := some 2, turn := none,
    click := none, game_id := none }

/-- The second click of the pending round on game two: row zero column
one, card one, matching the held click. -/
def c2post : PostData := ⟨some ⟨0, 1⟩⟩

/-- Game three of player carol with no click pending. -/
def c2gameB : Game :=
  { pk := 3, player := "carol", playfield := sampleField, seed := "s",
    active := true, finished := false, score := 0, time := 0, created := 0,
    open_turn := false, hold_card := none }

/-- Store holding only the game of carol. -/
def c2dbB : DB := { games := [c2gameB], turns := [], suspected := [] }

/-- Session of carol bound to game three. -/
def c2sessB : Session :=
  { player := some "carol", game := some 3, turn := none,
    click := none, game_id := none }

/-- A first click on row zero column two (card two). -/
def c2postB : PostData := ⟨some ⟨0, 2⟩⟩

/-- Witness for C1: the two-by-three game of alice with two matched
turns completes on the third matched pair, and the theorem applies to
the run. -/
theorem c1_completion_exact_witness :
    respCompleted (contestGamePost c1db c1sess c1post (some "tok") 6) = some true
    ∧ ((respCompleted (contestGamePost c1db c1sess c1post (some "tok") 6) = some true ↔
        (c1game.open_turn = true ∧
          (matchedCount (contestGamePost c1db c1sess c1post (some "tok") 6).db c1game.pk : ℚ)
            = pairsOf c1game))
      ∧ (respCompleted (contestGamePost c1db c1sess c1post (some "tok") 6) = some true →
          (respScore (contestGamePost c1db c1sess c1post (some "tok") 6)).isSome = true
          ∧ respSuccess (contestGamePost c1db c1sess c1post (some "tok") 6) = some true)) :=
  ⟨rfl, c1_completion_exact c1db c1sess c1post (some "tok") 6 1 "alice" c1game
    rfl rfl rfl rfl⟩

/-- Counterexample to C2 as stated: a second click handled by the play
endpoint with the default turn key 21 while a Turn row with primary key
21 of another game already exists.  The handler resolves the round and
answers a match, yet the Turn table does not grow: the Django save with
an explicit key updates the existing row in place, so no Turn record is
created; the row that belonged to game one now belongs to game two. -/
theorem c2_counterexample :
    (contestGamePost c2db c2sess c2post none 5).result.isOk = true
    ∧ respMatched (contestGamePost c2db c2sess c2post none 5) = some true
    ∧ c2db.turns.length = 1
    ∧ (contestGamePost c2db c2sess c2post none 5).db.turns.length = 1
    ∧ (c2db.findTurnPk 21).map Turn.game = some 1
    ∧ ((contestGamePost c2db c2sess c2post none 5).db.findTurnPk 21).map Turn.game
        = some 2 :=
  ⟨rfl, rfl, rfl, rfl, rfl, rfl⟩

/-- Claim C2 as amended: on a first click no Turn row is written, the
click is saved as pending on the game, and the response carries success
and the revealed card with no match field and status 200; on a second
click exactly one Turn row is written, keyed by the session turn
counter, capturing both clicks and the match outcome, the pending click
on the game is cleared, and the write creates a new record exactly when
that key does not collide with an existing Turn row (on a collision it
overwrites the stored row in place). -/
theorem c2_round_persistence (db : DB) (sess : Session) (post : PostData)
    (csrf : Option String) (now : ℚ) (gid : Nat) (player : String) (g : Game)
    (hg : sess.game = some gid) (hp : sess.player = some player)
    (hfind : db.findActiveGame gid player = some g) :
    (∀ c card, g.open_turn = false → post.click = some c → g.get_card_id c = .ok card →
      (contestGamePost db sess post csrf now).db.turns = db.turns
      ∧ (contestGamePost db sess post csrf now).db.findGamePk g.pk
          = some (g.update_turn true (some c))
      ∧ (contestGamePost db sess post csrf now).result =
          .ok { status := 200, success := true,
                click := some [⟨c.row, c.column, card⟩],
                matched := none, completed := none, score := none,
                msg := none, csrf_token := none })
    ∧ (∀ c1 c2 mc, g.open_turn = true → g.hold_card = some c1 → post.click = some c2 →
        g.match_clicks c1 c2 = .ok mc →
        (contestGamePost db sess post csrf now).result.isOk = true →
        (contestGamePost db sess post csrf now).db.findTurnPk (sess.turn.getD (gid * 10 + 1))
            = some ⟨sess.turn.getD (gid * 10 + 1), g.pk, mc.1, mc.2, now⟩
        ∧ ((contestGamePost db sess post csrf now).db.findGamePk g.pk).map Game.open_turn
            = some false
        ∧ ((contestGamePost db sess post csrf now).db.findGamePk g.pk).map Game.hold_card
            = some none
        ∧ respMatched (contestGamePost db sess post csrf now) = some mc.2
        ∧ (db.turns.any (fun x => x.pk == sess.turn.getD (gid * 10 + 1)) = false →
            (contestGamePost db sess post csrf now).db.turns.length
              = db.turns.length + 1)) := by
  constructor
  · intro c card hopen hpc hcard
    rw [contestGamePost_first db sess post csrf now gid player g c hg hp hfind hopen hpc]
    have hstep : firstClickStep db sess g c =
        ⟨.ok { status := 200, success := true,
               click := some [⟨c.row, c.column, card⟩],
               matched := none, completed := none, score := none,
               msg := none, csrf_token := none },
         db.saveGame (g.update_turn true (some c)), sess⟩ := by
      unfold firstClickStep
      simp only [hcard]
    rw [hstep]
    refine ⟨rfl, ?_, rfl⟩
    have h := DB.findGamePk_saveGame_self db (g.update_turn true (some c))
    rw [update_turn_pk] at h
    exact h
  · intro c1 c2 mc hopen hhold hpc hmcl hok
    rw [contestGamePost_resolve db sess post csrf now gid player g c1 c2
      hg hp hfind hopen hhold hpc] at hok ⊢
    have h := resolveStep_state db sess gid g c1 c2 csrf now mc hmcl hok
    exact ⟨h.2.1, h.2.2.1, h.2.2.2.1, h.2.2.2.2.1, h.2.2.2.2.2.2.2.1⟩

/-- Witness for C2: carol clicks once on a fresh game (no Turn row is
written, the click becomes pending) and bob resolves a round (the Turn
row keyed 21 records both clicks and the match, and the pending click
on game two is cleared). -/
theorem c2_round_persistence_witness :
    ((contestGamePost c2dbB c2sessB c2postB none 7).db.turns = c2dbB.turns
      ∧ (contestGamePost c2dbB c2sessB c2postB none 7).db.findGamePk 3
          = some (c2gameB.update_turn true (some ⟨0, 2⟩))
      ∧ (contestGamePost c2dbB c2sessB c2postB none 7).result =
          .ok { status := 200, success := true, click := some [⟨0, 2, 2⟩],
                matched := none, completed := none, score := none,
                msg := none, csrf_token := none })
    ∧ ((contestGamePost c2db c2sess c2post none 5).db.findTurnPk 21
          = some ⟨21, 2, [⟨0, 0, 1⟩, ⟨0, 1, 1⟩], true, 5⟩
      ∧ ((contestGamePost c2db c2sess c2post none 5).db.findGamePk 2).map Game.open_turn
          = some false) := by
  constructor
  · exact (c2_round_persistence c2dbB c2sessB c2postB none 7 3 "carol" c2gameB
      rfl rfl rfl).1 ⟨0, 2⟩ 2 rfl rfl rfl
  · have h := (c2_round_persistence c2db c2sess c2post none 5 2 "bob" c2game
      rfl rfl rfl).2 ⟨0, 0⟩ ⟨0, 1⟩ ([⟨0, 0, 1⟩, ⟨0, 1, 1⟩], true) rfl rfl rfl rfl rfl
    exact ⟨h.1, h.2.1⟩

/-- The second-click branch always answers success and status 200 when
the pair resolves and the playfield has a first row. -/
theorem resolveStep_success (db : DB) (sess : Session) (gid : Nat) (g : Game)
    (c1 c2 : Click) (csrf : Option String) (now : ℚ) (mc : List ClickCard × Bool)
    (row0 : List Nat)
    (hmcl : g.match_clicks c1 c2 = .ok mc)
    (hrow : g.playfield[0]? = some row0) :
    (resolveStep db sess gid g c1 c2 csrf now).result.isOk = true
    ∧ respStatus (resolveStep db sess gid g c1 c2 csrf now) = some 200
    ∧ respSuccess (resolveStep db sess gid g c1 c2 csrf now) = some true := by
  have hgc := game_completed_eq (dbAfterTurn db sess gid g mc now)
    (g.update_turn false none) row0 (by simp [hrow])
  cases hcompl : (2 * matchedCount (dbAfterTurn db sess gid g mc now)
      (Game.update_turn g false none).pk == cellCount (Game.update_turn g false none)) with
  | false =>
      rw [hcompl] at hgc
      have hstep : resolveStep db sess gid g c1 c2 csrf now =
          ⟨.ok { status := 200, success := true, click := some mc.1,
                 matched := some mc.2, completed := none, score := none,
                 msg := none, csrf_token := (aquire_csrf csrf).map smart_text },
           dbAfterTurn db sess gid g mc now, sessAfterTurn sess gid⟩ := by
        unfold resolveStep
        simp only [hmcl, hgc, Bool.false_eq_true, if_false]
      rw [hstep]
      exact ⟨rfl, rfl, rfl⟩
  | true =>
      rw [hcompl] at hgc
      have hne := turnsOf_dbAfterTurn_ne_nil db sess gid g mc now
      have hsome : (turnsOf (dbAfterTurn db sess gid g mc now) g.pk).getLast?.isSome
          = true := List.getLast?_isSome.mpr hne
      obtain ⟨lastT, hlast⟩ := Option.isSome_iff_exists.mp hsome
      have hstep : resolveStep db sess gid g c1 c2 csrf now =
          ⟨.ok { status := 200, success := true, click := some mc.1,
                 matched := some mc.2, completed := some true,
                 score := some (finishedGame (dbAfterTurn db sess gid g mc now)
                   (g.update_turn false none) lastT now).score,
                 msg := none,
                 csrf_token := (aquire_csrf csrf).map smart_text },
           SuspectedGame.is_game_suspected
             ((dbAfterTurn db sess gid g mc now).saveGame
               (finishedGame (dbAfterTurn db sess gid g mc now)
                 (g.update_turn false none) lastT now))
             (finishedGame (dbAfterTurn db sess gid g mc now)
               (g.update_turn false none) lastT now),
           { sessAfterTurn sess gid with game := none }⟩ := by
        unfold resolveStep completedStep
        simp only [hmcl, hgc, eq_self_iff_true, if_true, update_turn_pk, hlast]
      rw [hstep]
      exact ⟨rfl, rfl, rfl⟩

/-- Session with a game bound but no player identity. -/
def c3sessNoPlayer : Session :=
  { player := none, game := some 1, turn := none, click := none, game_id := none }

/-- Session of alice bound to a game key that matches no active
unfinished game of hers. -/
def c3sessStale : Session :=
  { player := some "alice", game := some 9, turn := none, click := none, game_id := none }

/-- Session of alice with no game key at all. -/
def c3sessNoGame : Session :=
  { player := some "alice", game := none, turn := none, click := none, game_id := none }

/-- Counterexample to C3 as stated: a request whose session binds a game
but holds no player identity is neither the no-game case nor the
game-not-found case, yet the handler does not return a success response
with HTTP 200: reading the player key raises an uncaught KeyError at
views.py line 72, before the game lookup. -/
theorem c3_counterexample :
    (contestGamePost ⟨[], [], []⟩ c3sessNoPlayer ⟨none⟩ none 0).result
      = .error (.keyError "player")
    ∧ (contestGamePost ⟨[], [], []⟩ c3sessNoPlayer ⟨none⟩ none 0).db = ⟨[], [], []⟩ :=
  ⟨rfl, rfl⟩

/-- Claim C3 as amended: with no game key in the session the endpoint
answers 500 with success false; with a game key, a player identity and
a lookup miss it answers 404 with success false and a message; reading
the player key raises an uncaught KeyError when the session holds none;
given a player identity, a parseable click inside the playfield (and a
parseable pending click on an open turn), every remaining case answers
success true with HTTP 200. -/
theorem c3_error_cases (db : DB) (sess : Session) (post : PostData)
    (csrf : Option String) (now : ℚ) :
    (sess.game = none →
      contestGamePost db sess post csrf now = ⟨.ok resp500, db, sess⟩
      ∧ resp500.status = 500 ∧ resp500.success = false)
    ∧ (∀ gid player, sess.game = some gid → sess.player = some player →
        db.findActiveGame gid player = none →
        contestGamePost db sess post csrf now = ⟨.ok resp404, db, sess⟩
        ∧ resp404.status = 404 ∧ resp404.success = false ∧ resp404.msg.isSome = true)
    ∧ (∀ gid, sess.game = some gid → sess.player = none →
        contestGamePost db sess post csrf now = ⟨.error (.keyError "player"), db, sess⟩)
    ∧ (∀ gid player g c, sess.game = some gid → sess.player = some player →
        db.findActiveGame gid player = some g → post.click = some c →
        (g.open_turn = false → (g.get_card_id c).isOk = true →
          respStatus (contestGamePost db sess post csrf now) = some 200
          ∧ respSuccess (contestGamePost db sess post csrf now) = some true)
        ∧ (∀ c1, g.open_turn = true → g.hold_card = some c1 →
            (g.match_clicks c1 c).isOk = true → g.playfield[0]?.isSome = true →
            respStatus (contestGamePost db sess post csrf now) = some 200
            ∧ respSuccess (contestGamePost db sess post csrf now) = some true)) := by
  refine ⟨?_, ?_, ?_, ?_⟩
  · intro h
    exact ⟨contestGamePost_500 db sess post csrf now h, rfl, rfl⟩
  · intro gid player hg hp hfind
    exact ⟨contestGamePost_404 db sess post csrf now gid player hg hp hfind, rfl, rfl, rfl⟩
  · intro gid hg hp
    exact contestGamePost_keyerr db sess post csrf now gid hg hp
  · intro gid player g c hg hp hfind hpc
    constructor
    · intro hopen hcard
      cases hcardv : g.get_card_id c with
      | error e => rw [hcardv] at hcard; simp [Except.isOk, Except.toBool] at hcard
      | ok card =>
          rw [contestGamePost_first db sess post csrf now gid player g c
            hg hp hfind hopen hpc]
          have hstep : firstClickStep db sess g c =
              ⟨.ok { status := 200, success := true,
                     click := some [⟨c.row, c.column, card⟩],
                     matched := none, completed := none, score := none,
                     msg := none, csrf_token := none },
               db.saveGame (g.update_turn true (some c)), sess⟩ := by
            unfold firstClickStep
            simp only [hcardv]
          rw [hstep]
          exact ⟨rfl, rfl⟩
    · intro c1 hopen hhold hmcl hrow
      cases hmclv : g.match_clicks c1 c with
      | error e => rw [hmclv] at hmcl; simp [Except.isOk, Except.toBool] at hmcl
      | ok mc =>
          obtain ⟨row0, hrow0⟩ := Option.isSome_iff_exists.mp hrow
          rw [contestGamePost_resolve db sess post csrf now gid player g c1 c
            hg hp hfind hopen hhold hpc]
          have h := resolveStep_success db sess gid g c1 c csrf now mc row0 hmclv hrow0
          exact ⟨h.2.1, h.2.2⟩

/-- Witness for C3: a session with no game key answers 500; a stale game
key answers 404; a missing player raises KeyError; a well-formed second
click on game one answers success and 200. -/
theorem c3_error_cases_witness :
    (contestGamePost c1db c3sessNoGame c1post none 0 = ⟨.ok resp500, c1db, c3sessNoGame⟩
      ∧ resp500.status = 500 ∧ resp500.success = false)
    ∧ (contestGamePost c1db c3sessStale c1post none 0 = ⟨.ok resp404, c1db, c3sessStale⟩
      ∧ resp404.status = 404 ∧ resp404.success = false ∧ resp404.msg.isSome = true)
    ∧ contestGamePost c1db c3sessNoPlayer c1post none 0
        = ⟨.error (.keyError "player"), c1db, c3sessNoPlayer⟩
    ∧ (respStatus (contestGamePost c1db c1sess c1post (some "tok") 6) = some 200
      ∧ respSuccess (contestGamePost c1db c1sess c1post (some "tok") 6) = some true) := by
  refine ⟨?_, ?_, ?_, ?_⟩
  · exact (c3_error_cases c1db c3sessNoGame c1post none 0).1 rfl
  · exact (c3_error_cases c1db c3sessStale c1post none 0).2.1 9 "alice" rfl rfl rfl
  · exact (c3_error_cases c1db c3sessNoPlayer c1post none 0).2.2.1 1 rfl rfl
  · exact ((c3_error_cases c1db c1sess c1post (some "tok") 6).2.2.2 1 "alice" c1game
      ⟨1, 2⟩ rfl rfl rfl rfl).2 ⟨1, 1⟩ rfl rfl rfl rfl

/-- Game one of player dora with an open turn, in a session whose turn
counter has reached 21: the counter starts at eleven for game one and
each resolved round adds one, so ten rounds reach 21. -/
def c4game : Game :=
  { pk := 1, player := "dora", playfield := sampleField, seed := "s",
    active := true, finished := false, score := 0, time := 0, created := 0,
    open_turn := true, hold_card := some ⟨0, 0⟩ }

/-- Store holding only the game of dora. -/
def c4db : DB := { games := [c4game], turns := [], suspected := [] }

/-- Session of dora on game one with turn counter 21. -/
def c4sess : Session :=
  { player := some "dora", game := some 1, turn := some 21,
    click := none, game_id := none }

/-- Second click of the round of dora. -/
def c4post : PostData := ⟨some ⟨0, 1⟩⟩

/-- Counterexample to C4 as stated: the key scheme does not avoid
cross-session collisions.  The session of dora (counter 21 on game one,
reached after ten rounds) and the fresh session of bob (default key two
times ten plus one on game two) both persist a Turn row with primary
key 21 and advance their counters to 22. -/
theorem c4_counterexample :
    ((contestGamePost c4db c4sess c4post none 3).db.findTurnPk 21).map Turn.game
        = some 1
    ∧ ((contestGamePost c2db c2sess c2post none 5).db.findTurnPk 21).map Turn.game
        = some 2
    ∧ (contestGamePost c4db c4sess c4post none 3).sess.turn = some 22
    ∧ (contestGamePost c2db c2sess c2post none 5).sess.turn = some 22 :=
  ⟨rfl, rfl, rfl, rfl⟩

/-- Claim C4 as amended: every resolved round persists a Turn row whose
primary key is the session turn counter, defaulting to the game id
times ten plus one when the counter is absent, and the counter is then
set to that key plus one; the scheme does not guarantee uniqueness
across sessions: two sessions can derive the same key (a session past
its tenth round on game one and a fresh session on game two both derive
21), in which case the later save overwrites the stored row. -/
theorem c4_turn_key (db : DB) (sess : Session) (post : PostData)
    (csrf : Option String) (now : ℚ) (gid : Nat) (player : String) (g : Game)
    (c1 c2 : Click) (mc : List ClickCard × Bool)
    (hg : sess.game = some gid) (hp : sess.player = some player)
    (hfind : db.findActiveGame gid player = some g)
    (hopen : g.open_turn = true) (hhold : g.hold_card = some c1)
    (hpc : post.click = some c2)
    (hmcl : g.match_clicks c1 c2 = .ok mc)
    (hok : (contestGamePost db sess post csrf now).result.isOk = true) :
    (contestGamePost db sess post csrf now).db.findTurnPk (sess.turn.getD (gid * 10 + 1))
        = some ⟨sess.turn.getD (gid * 10 + 1), g.pk, mc.1, mc.2, now⟩
    ∧ (contestGamePost db sess post csrf now).sess.turn
        = some (sess.turn.getD (gid * 10 + 1) + 1) := by
  rw [contestGamePost_resolve db sess post csrf now gid player g c1 c2
    hg hp hfind hopen hhold hpc] at hok ⊢
  have h := resolveStep_state db sess gid g c1 c2 csrf now mc hmcl hok
  exact ⟨h.2.1, h.2.2.2.2.2.1⟩

/-- Witness for C4: the round of dora persists the Turn row with key 21
and sets the session counter to 22. -/
theorem c4_turn_key_witness :
    (contestGamePost c4db c4sess c4post none 3).db.findTurnPk 21
        = some ⟨21, 1, [⟨0, 0, 1⟩, ⟨0, 1, 1⟩], true, 3⟩
    ∧ (contestGamePost c4db c4sess c4post none 3).sess.turn = some 22 :=
  c4_turn_key c4db c4sess c4post none 3 1 "dora" c4game ⟨0, 0⟩ ⟨0, 1⟩
    ([⟨0, 0, 1⟩, ⟨0, 1, 1⟩], true) rfl rfl rfl rfl rfl rfl rfl rfl

/-- Counterexample to C5 as stated: a successful first-click response
with an applicable anti-forgery token does not carry it.  The handler
puts the token into the context dictionary at views.py line 70, but the
first-click branch at line 91 builds and returns a fresh dictionary
without it. -/
theorem c5_counterexample :
    respSuccess (contestGamePost c2dbB c2sessB c2postB (some "tok") 7) = some true
    ∧ respStatus (contestGamePost c2dbB c2sessB c2postB (some "tok") 7) = some 200
    ∧ respCsrf (contestGamePost c2dbB c2sessB c2postB (some "tok") 7) = none :=
  ⟨rfl, rfl, rfl⟩

/-- Claim C5 as amended: a successful second-click response includes the
freshened anti-forgery token when one is applicable to the request,
while a successful first-click response never includes one. -/
theorem c5_csrf (db : DB) (sess : Session) (post : PostData)
    (csrf : Option String) (now : ℚ) (gid : Nat) (player : String) (g : Game)
    (hg : sess.game = some gid) (hp : sess.player = some player)
    (hfind : db.findActiveGame gid player = some g) :
    (∀ c1 c2 mc, g.open_turn = true → g.hold_card = some c1 → post.click = some c2 →
        g.match_clicks c1 c2 = .ok mc →
        (contestGamePost db sess post csrf now).result.isOk = true →
        respCsrf (contestGamePost db sess post csrf now) = csrf)
    ∧ (∀ c card, g.open_turn = false → post.click = some c → g.get_card_id c = .ok card →
        respCsrf (contestGamePost db sess post csrf now) = none) := by
  constructor
  · intro c1 c2 mc hopen hhold hpc hmcl hok
    rw [contestGamePost_resolve db sess post csrf now gid player g c1 c2
      hg hp hfind hopen hhold hpc] at hok ⊢
    exact (resolveStep_state db sess gid g c1 c2 csrf now mc hmcl hok).2.2.2.2.2.2.1
  · intro c card hopen hpc hcard
    rw [contestGamePost_first db sess post csrf now gid player g c hg hp hfind hopen hpc]
    have hstep : firstClickStep db sess g c =
        ⟨.ok { status := 200, success := true,
               click := some [⟨c.row, c.column, card⟩],
               matched := none, completed := none, score := none,
               msg := none, csrf_token := none },
         db.saveGame (g.update_turn true (some c)), sess⟩ := by
      unfold firstClickStep
      simp only [hcard]
    rw [hstep]
    rfl

/-- Witness for C5: the completing second click of alice carries the
token of the request, while the first click of carol, with a token
applicable, carries none. -/
theorem c5_csrf_witness :
    respCsrf (contestGamePost c1db c1sess c1post (some "tok") 6) = some "tok"
    ∧ respCsrf (contestGamePost c2dbB c2sessB c2postB (some "tok") 7) = none := by
  constructor
  · exact (c5_csrf c1db c1sess c1post (some "tok") 6 1 "alice" c1game rfl rfl rfl).1
      ⟨1, 1⟩ ⟨1, 2⟩ ([⟨1, 1, 3⟩, ⟨1, 2, 3⟩], true) rfl rfl rfl rfl rfl
  · exact (c5_csrf c2dbB c2sessB c2postB (some "tok") 7 3 "carol" c2gameB rfl rfl rfl).2
      ⟨0, 2⟩ 2 rfl rfl rfl

/-- Claim C7: at the moment a game completes, the average seconds per
turn stored on the game equals the creation timestamp of its last Turn
row minus the game creation timestamp, divided by the number of its
Turn rows. -/
theorem c7_avg_turn_time (db : DB) (sess : Session) (post : PostData)
    (csrf : Option String) (now : ℚ) (gid : Nat) (player : String) (g : Game)
    (c1 c2 : Click) (mc : List ClickCard × Bool)
    (hg : sess.game = some gid) (hp : sess.player = some player)
    (hfind : db.findActiveGame gid player = some g)
    (hopen : g.open_turn = true) (hhold : g.hold_card = some c1)
    (hpc : post.click = some c2)
    (hmcl : g.match_clicks c1 c2 = .ok mc)
    (hok : (contestGamePost db sess post csrf now).result.isOk = true)
    (hcompl : respCompleted (contestGamePost db sess post csrf now) = some true) :
    timeOfGame (contestGamePost db sess post csrf now).db g.pk
        = avgTurnTime (contestGamePost db sess post csrf now).db g.pk g.created
    ∧ (avgTurnTime (contestGamePost db sess post csrf now).db g.pk g.created).isSome
        = true := by
  rw [contestGamePost_resolve db sess post csrf now gid player g c1 c2
    hg hp hfind hopen hhold hpc] at hok hcompl ⊢
  exact (resolveStep_state db sess gid g c1 c2 csrf now mc hmcl hok).2.2.2.2.2.2.2.2 hcompl

/-- Witness for C7: the completing run of alice stores as average turn
time exactly the last turn timestamp minus the game creation timestamp
over the turn count. -/
theorem c7_avg_turn_time_witness :
    timeOfGame (contestGamePost c1db c1sess c1post (some "tok") 6).db 1
        = avgTurnTime (contestGamePost c1db c1sess c1post (some "tok") 6).db 1 0
    ∧ (avgTurnTime (contestGamePost c1db c1sess c1post (some "tok") 6).db 1 0).isSome
        = true :=
  c7_avg_turn_time c1db c1sess c1post (some "tok") 6 1 "alice" c1game ⟨1, 1⟩ ⟨1, 2⟩
    ([⟨1, 1, 3⟩, ⟨1, 2, 3⟩], true) rfl rfl rfl rfl rfl rfl rfl rfl rfl

theorem findGamePk_saveTurn (db : DB) (t : Turn) (pk : Nat) :
    (db.saveTurn t).findGamePk pk = db.findGamePk pk := rfl

theorem dbAfterTurn_findGamePk_other (db : DB) (sess : Session) (gid : Nat) (g : Game)
    (mc : List ClickCard × Bool) (now : ℚ) (pk : Nat) (hne : g.pk ≠ pk) :
    (dbAfterTurn db sess gid g mc now).findGamePk pk = db.findGamePk pk := by
  unfold dbAfterTurn
  rw [DB.findGamePk_saveGame_ne _ _ _ (by simpa using hne)]
  rfl

theorem resolveStep_findGamePk_other (db : DB) (sess : Session) (gid : Nat) (g : Game)
    (c1 c2 : Click) (csrf : Option String) (now : ℚ) (pk : Nat) (hne : g.pk ≠ pk) :
    (resolveStep db sess gid g c1 c2 csrf now).db.findGamePk pk = db.findGamePk pk := by
  cases hmcl : g.match_clicks c1 c2 with
  | error e =>
      unfold resolveStep
      simp only [hmcl]
  | ok mc =>
      cases hgc : game_completed (dbAfterTurn db sess gid g mc now)
          (g.update_turn false none) with
      | error e =>
          unfold resolveStep
          simp only [hmcl, hgc]
          exact dbAfterTurn_findGamePk_other db sess gid g mc now pk hne
      | ok compl =>
          cases compl with
          | false =>
              unfold resolveStep
              simp only [hmcl, hgc, Bool.false_eq_true, if_false]
              exact dbAfterTurn_findGamePk_other db sess gid g mc now pk hne
          | true =>
              unfold resolveStep
              simp only [hmcl, hgc, eq_self_iff_true, if_true]
              unfold completedStep
              cases hlastv : (turnsOf (dbAfterTurn db sess gid g mc now)
                  (g.update_turn false none).pk).getLast? with
              | none =>
                  simp only [hlastv]
                  exact dbAfterTurn_findGamePk_other db sess gid g mc now pk hne
              | some lastT =>
                  simp only [hlastv]
                  rw [findGamePk_suspect,
                    DB.findGamePk_saveGame_ne _ _ _ (by simpa [finishedGame] using hne)]
                  exact dbAfterTurn_findGamePk_other db sess gid g mc now pk hne

/-- Claim C8: once a game row is finished, no play-endpoint request ever
changes it again: whatever the session, body, token and clock, the row
stored under its key after the request is the row stored before, so its
score and elapsed time written by the completion branch are never
recomputed and the finished state is never left. -/
theorem c8_finished_immutable (db : DB) (pk : Nat) (g : Game)
    (hfind : db.findGamePk pk = some g) (hfin : g.finished = true)
    (hnodup : pksNodup db) :
    ∀ sess post csrf now,
      (contestGamePost db sess post csrf now).db.findGamePk pk = some g := by
  intro sess post csrf now
  have hgmem : g ∈ db.games := List.mem_of_find?_eq_some hfind
  have hgpk : g.pk = pk := by simpa using List.find?_some hfind
  cases hsg : sess.game with
  | none =>
      rw [contestGamePost_500 db sess post csrf now hsg]
      exact hfind
  | some gid =>
      cases hsp : sess.player with
      | none =>
          rw [contestGamePost_keyerr db sess post csrf now gid hsg hsp]
          exact hfind
      | some player =>
          cases hfa : db.findActiveGame gid player with
          | none =>
              rw [contestGamePost_404 db sess post csrf now gid player hsg hsp hfa]
              exact hfind
          | some g2 =>
              have hg2mem : g2 ∈ db.games := List.mem_of_find?_eq_some hfa
              have hg2pred := List.find?_some hfa
              simp only [Bool.and_eq_true, beq_iff_eq, Bool.not_eq_true'] at hg2pred
              obtain ⟨⟨⟨hg2pk, _⟩, _⟩, hg2fin⟩ := hg2pred
              have hne : g2.pk ≠ pk := by
                intro he
                have heq : g2 = g :=
                  List.inj_on_of_nodup_map hnodup hg2mem hgmem (by rw [he, hgpk])
                rw [heq] at hg2fin
                rw [hg2fin] at hfin
                cases hfin
              by_cases hopen : g2.open_turn = true
              · cases hhold : g2.hold_card with
                | none =>
                    rw [contestGamePost_hold_keyerr db sess post csrf now gid player g2
                      hsg hsp hfa hopen hhold]
                    exact hfind
                | some cc1 =>
                    cases hpcv : post.click with
                    | none =>
                        rw [contestGamePost_click_keyerr db sess post csrf now gid player g2
                          cc1 hsg hsp hfa hopen hhold hpcv]
                        exact hfind
                    | some cc2 =>
                        rw [contestGamePost_resolve db sess post csrf now gid player g2
                          cc1 cc2 hsg hsp hfa hopen hhold hpcv]
                        rw [resolveStep_findGamePk_other db sess gid g2 cc1 cc2 csrf now
                          pk hne]
                        exact hfind
              · have hopen' : g2.open_turn = false := Bool.eq_false_iff.mpr hopen
                cases hpcv : post.click with
                | none =>
                    rw [contestGamePost_first_keyerr db sess post csrf now gid player g2
                      hsg hsp hfa hopen' hpcv]
                    exact hfind
                | some cc =>
                    rw [contestGamePost_first db sess post csrf now gid player g2 cc
                      hsg hsp hfa hopen' hpcv]
                    cases hcard : g2.get_card_id cc with
                    | error e =>
                        unfold firstClickStep
                        simp only [hcard]
                        exact hfind
                    | ok card =>
                        unfold firstClickStep
                        simp only [hcard]
                        show (db.saveGame (g2.update_turn true (some cc))).findGamePk pk
                            = some g
                        rw [DB.findGamePk_saveGame_ne _ _ _ (by simpa using hne)]
                        exact hfind

/-- Finished game of player erin, score and time already stored. -/
def c8game : Game :=
  { pk := 5, player := "erin", playfield := sampleField, seed := "s",
    active := false, finished := true, score := 1, time := 2, created := 0,
    open_turn := false, hold_card := none }

/-- Store holding the finished game of erin next to the running game of
alice. -/
def c8db : DB := { games := [c8game, c1game], turns := [], suspected := [] }

/-- Witness for C8: after alice plays a full round in the same store,
the finished game of erin is stored unchanged. -/
theorem c8_finished_immutable_witness :
    (contestGamePost c8db c1sess c1post none 6).db.findGamePk 5 = some c8game :=
  c8_finished_immutable c8db 5 c8game rfl rfl (by unfold pksNodup; decide)
    c1sess c1post none 6

/- Lemmas for the one-active-game invariant. -/

theorem filter_stop_self (l : List Game) (p : String) :
    (l.map (fun g => if g.player == p && g.active then { g with active := false } else g)).filter
      (fun g => g.player == p && g.active && !g.finished) = [] := by
  rw [List.filter_eq_nil_iff]
  intro x hx
  obtain ⟨y, hy, hfy⟩ := List.mem_map.mp hx
  cases hc : (y.player == p && y.active) with
  | false =>
      rw [← hfy, if_neg (by simp [hc])]
      simp [hc]
  | true =>
      rw [← hfy, if_pos (by simp [hc])]
      simp

theorem filter_length_stop_other (l : List Game) (p q : String) (hne : p ≠ q) :
    ((l.map (fun g => if g.player == p && g.active then { g with active := false } else g)).filter
        (fun g => g.player == q && g.active && !g.finished)).length
      = (l.filter (fun g => g.player == q && g.active && !g.finished)).length := by
  induction l with
  | nil => rfl
  | cons a t ih =>
      simp only [List.map_cons]
      cases hc : (a.player == p && a.active) with
      | false =>
          cases hd : (a.player == q && a.active && !a.finished) with
          | false => simpa [hd] using ih
          | true => simpa [hd] using ih
      | true =>
          have hap : a.player = p := by
            have h1 := (Bool.and_eq_true _ _).mp hc
            simpa using h1.1
          have haq : (a.player == q) = false := by
            rw [hap]
            simpa using hne
          simpa [haq] using ih

theorem activeCount_stop_self (db : DB) (p : String) :
    activeCount (stop_active_games_for_player db p) p = 0 := by
  unfold activeCount stop_active_games_for_player
  rw [filter_stop_self]
  rfl

theorem activeCount_stop_other (db : DB) (p q : String) (hne : p ≠ q) :
    activeCount (stop_active_games_for_player db p) q = activeCount db q := by
  unfold activeCount stop_active_games_for_player
  exact filter_length_stop_other db.games p q hne

theorem le_foldr_max (l : List Game) (g : Game) (h : g ∈ l) :
    g.pk ≤ l.foldr (fun x m => max x.pk m) 0 := by
  induction l with
  | nil => cases h
  | cons a t ih =>
      simp only [List.foldr_cons]
      rcases List.mem_cons.mp h with heq | ht
      · rw [heq]
        exact le_max_left _ _
      · exact le_trans (ih ht) (le_max_right _ _)

theorem nextGamePk_not_present (db : DB) :
    db.games.any (fun x => x.pk == db.nextGamePk) = false := by
  rw [List.any_eq_false]
  intro x hx
  have hlt : x.pk < db.nextGamePk := by
    unfold DB.nextGamePk
    exact Nat.lt_succ_of_le (le_foldr_max db.games x hx)
  simp only [beq_iff_eq]
  omega

theorem activeCount_saveGame_append (db : DB) (g : Game)
    (hfresh : db.games.any (fun x => x.pk == g.pk) = false) (q : String) :
    activeCount (db.saveGame g) q
      = activeCount db q
        + (if (g.player == q && g.active && !g.finished) = true then 1 else 0) := by
  unfold activeCount DB.saveGame
  simp only [hfresh, Bool.false_eq_true, if_false]
  rw [List.filter_append, List.length_append]
  congr 1
  cases hp : (g.player == q && g.active && !g.finished) <;> simp [List.filter, hp]

theorem contestViewGet_db (db : DB) (sess : Session) (player : String)
    (seed uuidHex : String) (now : ℚ) :
    (contestViewGet db sess player seed uuidHex now).db
      = (stop_active_games_for_player db player).saveGame
          { pk := (stop_active_games_for_player db player).nextGamePk, player := player,
            playfield := Game.generate_play_field 2 3 seed, seed := seed,
            active := true, finished := false, score := 0, time := 0,
            created := now, open_turn := false, hold_card := none } := rfl

theorem mem_saveGame (db : DB) (g : Game) : g ∈ (db.saveGame g).games := by
  unfold DB.saveGame
  exact mem_save (fun x => x.pk) db.games g

theorem pks_saveGame_replace (db : DB) (g' : Game)
    (hany : db.games.any (fun x => x.pk == g'.pk) = true) :
    (db.saveGame g').games.map (fun g => g.pk) = db.games.map (fun g => g.pk) := by
  unfold DB.saveGame
  simp only [hany, if_true, List.map_map]
  apply List.map_congr_left
  intro a _
  simp only [Function.comp_apply]
  by_cases hc : a.pk = g'.pk
  · rw [if_pos (by simpa using hc)]
    exact hc.symm
  · rw [if_neg (by simpa using hc)]

theorem activeCount_replace_le (db : DB) (g2 gr : Game) (hnodup : pksNodup db)
    (hmem : g2 ∈ db.games) (hpk : gr.pk = g2.pk)
    (himp : ∀ q, (gr.player == q && gr.active && !gr.finished) = true →
      (g2.player == q && g2.active && !g2.finished) = true)
    (q : String) :
    activeCount (db.saveGame gr) q ≤ activeCount db q := by
  unfold activeCount DB.saveGame
  have hany : db.games.any (fun x => x.pk == gr.pk) = true :=
    List.any_eq_true.mpr ⟨g2, hmem, by simp [hpk]⟩
  simp only [hany, if_true]
  apply length_filter_map_le
  intro x hx hpx
  by_cases hc : x.pk = gr.pk
  · have hxg2 : x = g2 := List.inj_on_of_nodup_map hnodup hx hmem (by rw [hc, hpk])
    rw [if_pos (by simpa using hc)] at hpx
    rw [hxg2]
    exact himp q hpx
  · rw [if_neg (by simpa using hc)] at hpx
    exact hpx

theorem activeCount_saveTurn (db : DB) (t : Turn) (q : String) :
    activeCount (db.saveTurn t) q = activeCount db q := rfl

theorem activeCount_suspect (db : DB) (g : Game) (q : String) :
    activeCount (SuspectedGame.is_game_suspected db g) q = activeCount db q := by
  unfold activeCount
  rw [games_suspect]

theorem pksNodup_saveTurn (db : DB) (t : Turn) (h : pksNodup db) :
    pksNodup (db.saveTurn t) := h

theorem resolveStep_activeCount_le (db : DB) (sess : Session) (gid : Nat) (g2 : Game)
    (c1 c2 : Click) (csrf : Option String) (now : ℚ) (q : String)
    (hnodup : pksNodup db) (hmem : g2 ∈ db.games) :
    activeCount (resolveStep db sess gid g2 c1 c2 csrf now).db q ≤ activeCount db q := by
  cases hmcl : g2.match_clicks c1 c2 with
  | error e =>
      unfold resolveStep
      simp only [hmcl]
      exact le_refl _
  | ok mc =>
      have hbase : activeCount (dbAfterTurn db sess gid g2 mc now) q ≤ activeCount db q := by
        unfold dbAfterTurn
        have h1 := activeCount_replace_le (db.saveTurn (newTurn sess gid g2 mc now))
          g2 (g2.update_turn false none) hnodup hmem rfl
          (fun _ h => h) q
        rw [activeCount_saveTurn] at h1
        exact h1
      cases hgc : game_completed (dbAfterTurn db sess gid g2 mc now)
          (g2.update_turn false none) with
      | error e =>
          unfold resolveStep
          simp only [hmcl, hgc]
          exact hbase
      | ok compl =>
          cases compl with
          | false =>
              unfold resolveStep
              simp only [hmcl, hgc, Bool.false_eq_true, if_false]
              exact hbase
          | true =>
              unfold resolveStep
              simp only [hmcl, hgc, eq_self_iff_true, if_true]
              unfold completedStep
              cases hlastv : (turnsOf (dbAfterTurn db sess gid g2 mc now)
                  (g2.update_turn false none).pk).getLast? with
              | none =>
                  simp only [hlastv]
                  exact hbase
              | some lastT =>
                  simp only [hlastv]
                  rw [activeCount_suspect]
                  have hnodup2 : pksNodup (dbAfterTurn db sess gid g2 mc now) := by
                    unfold pksNodup dbAfterTurn
                    rw [pks_saveGame_replace (db.saveTurn (newTurn sess gid g2 mc now))
                      (g2.update_turn false none)
                      (List.any_eq_true.mpr ⟨g2, hmem, by simp⟩)]
                    exact hnodup
                  have hmem2 : g2.update_turn false none
                      ∈ (dbAfterTurn db sess gid g2 mc now).games :=
                    mem_saveGame (db.saveTurn (newTurn sess gid g2 mc now))
                      (g2.update_turn false none)
                  have h2 := activeCount_replace_le (dbAfterTurn db sess gid g2 mc now)
                    (g2.update_turn false none)
                    (finishedGame (dbAfterTurn db sess gid g2 mc now)
                      (g2.update_turn false none) lastT now)
                    hnodup2 hmem2 rfl
                    (fun qq hq => by simp [finishedGame] at hq) q
                  exact le_trans h2 hbase

/-- Claim C9: if at most one active unfinished game exists per player,
then after any start-endpoint request (which stops every active game of
the chosen player before creating the new one) and after any
play-endpoint request the invariant still holds; after a start request
the chosen player has exactly one active unfinished game. -/
theorem c9_one_active (db : DB) (hnodup : pksNodup db) (hinv : oneActiveInv db) :
    (∀ sess player seed uuidHex now,
      oneActiveInv (contestViewGet db sess player seed uuidHex now).db
      ∧ activeCount (contestViewGet db sess player seed uuidHex now).db player = 1)
    ∧ (∀ sess post csrf now, oneActiveInv (contestGamePost db sess post csrf now).db) := by
  constructor
  · intro sess player seed uuidHex now
    have hcount : ∀ q, activeCount (contestViewGet db sess player seed uuidHex now).db q
        = activeCount (stop_active_games_for_player db player) q
          + (if (player == q) = true then 1 else 0) := by
      intro q
      rw [contestViewGet_db]
      rw [activeCount_saveGame_append _ _ (nextGamePk_not_present _) q]
      congr 1
      cases hq : (player == q) <;> simp [hq]
    constructor
    · intro q
      rw [hcount q]
      by_cases hq : player = q
      · subst hq
        rw [activeCount_stop_self]
        simp
      · rw [activeCount_stop_other db player q hq]
        have hb : (player == q) = false := by simpa using hq
        rw [hb]
        simpa using hinv q
    · rw [hcount player]
      rw [activeCount_stop_self]
      simp
  · intro sess post csrf now
    intro q
    cases hsg : sess.game with
    | none =>
        rw [contestGamePost_500 db sess post csrf now hsg]
        exact hinv q
    | some gid =>
        cases hsp : sess.player with
        | none =>
            rw [contestGamePost_keyerr db sess post csrf now gid hsg hsp]
            exact hinv q
        | some player =>
            cases hfa : db.findActiveGame gid player with
            | none =>
                rw [contestGamePost_404 db sess post csrf now gid player hsg hsp hfa]
                exact hinv q
            | some g2 =>
                have hg2mem : g2 ∈ db.games := List.mem_of_find?_eq_some hfa
                by_cases hopen : g2.open_turn = true
                · cases hhold : g2.hold_card with
                  | none =>
                      rw [contestGamePost_hold_keyerr db sess post csrf now gid player g2
                        hsg hsp hfa hopen hhold]
                      exact hinv q
                  | some cc1 =>
                      cases hpcv : post.click with
                      | none =>
                          rw [contestGamePost_click_keyerr db sess post csrf now gid player
                            g2 cc1 hsg hsp hfa hopen hhold hpcv]
                          exact hinv q
                      | some cc2 =>
                          rw [contestGamePost_resolve db sess post csrf now gid player g2
                            cc1 cc2 hsg hsp hfa hopen hhold hpcv]
                          exact le_trans (resolveStep_activeCount_le db sess gid g2 cc1 cc2
                            csrf now q hnodup hg2mem) (hinv q)
                · have hopen' : g2.open_turn = false := Bool.eq_false_iff.mpr hopen
                  cases hpcv : post.click with
                  | none =>
                      rw [contestGamePost_first_keyerr db sess post csrf now gid player g2
                        hsg hsp hfa hopen' hpcv]
                      exact hinv q
                  | some cc =>
                      rw [contestGamePost_first db sess post csrf now gid player g2 cc
                        hsg hsp hfa hopen' hpcv]
                      cases hcard : g2.get_card_id cc with
                      | error e =>
                          unfold firstClickStep
                          simp only [hcard]
                          exact hinv q
                      | ok card =>
                          unfold firstClickStep
                          simp only [hcard]
                          show activeCount (db.saveGame (g2.update_turn true (some cc))) q
                              ≤ 1
                          exact le_trans (activeCount_replace_le db g2
                            (g2.update_turn true (some cc)) hnodup hg2mem rfl
                            (fun qq h => h) q) (hinv q)

/-- Store with a single active unfinished game, of alice. -/
def c9db : DB := { games := [c1game], turns := [], suspected := [] }

/-- Witness for C9: starting a game for bob on the store of alice keeps
at most one active unfinished game per player and leaves bob with
exactly one; a play request of alice also preserves the invariant. -/
theorem c9_one_active_witness :
    (oneActiveInv (contestViewGet c9db c1sess "bob" "seed" "u" 0).db
      ∧ activeCount (contestViewGet c9db c1sess "bob" "seed" "u" 0).db "bob" = 1)
    ∧ oneActiveInv (contestGamePost c9db c1sess c1post none 6).db := by
  have hnodup : pksNodup c9db := by
    unfold pksNodup
    decide
  have hinv : oneActiveInv c9db := by
    intro p
    exact le_trans (List.length_filter_le _ _) (by decide)
  exact ⟨(c9_one_active c9db hnodup hinv).1 c1sess "bob" "seed" "u" 0,
    (c9_one_active c9db hnodup hinv).2 c1sess c1post none 6⟩

/-- Finished game of alice with the positive score five. -/
def c6game : Game :=
  { pk := 7, player := "alice", playfield := sampleField, seed := "s",
    active := false, finished := true, score := 5, time := 2, created := 0,
    open_turn := false, hold_card := none }

/-- Store holding one finished game of alice with a positive score. -/
def c6db : DB := { games := [c6game], turns := [], suspected := [] }

/-- Claim C6 evaluated at its failing input: as soon as the player has a
game with positive score, the best-score query set of
ContestView.get_game_context is nonempty and line 172 reads attribute
score on the query set itself, raising AttributeError instead of
returning the best score; the same crash reaches the start endpoint;
only a player with no positive-score game gets a value, the Decimal
zero.  The ordering of line 167 is ascending, so even an indexed read
would fetch the lowest score, not the best. -/
theorem c6_best_score_crash :
    ContestView.get_game_context c6db "alice" 2 3 = .error (.attributeError "score")
    ∧ (contestViewGet c6db c1sess "alice" "sd" "u" 0).result
        = .error (.attributeError "score")
    ∧ (ContestView.get_game_context ⟨[], [], []⟩ "alice" 2 3).toOption.map
        GameData.best_score = some 0 :=
  ⟨rfl, rfl, rfl⟩

/-- Claim C10: a highscore request whose session holds no player
identity raises an uncaught KeyError at views.py line 197 instead of
returning a handled error response. -/
theorem c10_highscore_keyerror (db : DB) (sess : Session) (hp : sess.player = none) :
    contestHighscoreGet db sess = .error (.keyError "player") := by
  unfold contestHighscoreGet
  rw [hp]

/-- Witness for C10: the empty session crashes the highscore view. -/
theorem c10_highscore_keyerror_witness :
    contestHighscoreGet c1db ⟨none, none, none, none, none⟩
      = .error (.keyError "player") :=
  c10_highscore_keyerror c1db ⟨none, none, none, none, none⟩ rfl

end Memorytest
